import Mathlib

/-!
Verification of the Kube-9 miniature container orchestrator.

This file is a shallow embedding of the control-plane code:
  * `models.py`            — the data model (Node, Pod, Container, Volume, ConfigItem)
  * `routes/nodes.py`      — create_node, update_heartbeat, delete_node,
                             simulate_node_failure, deregister_node, send_heartbeats
  * `routes/pods.py`       — add_pod, delete_pod
  * `services/monitor.py`  — DockerMonitor: monitor_containers, monitor_node_health,
                             attempt_node_recovery, reschedule_pods, reap_stale_containers

The SQLAlchemy store is modelled as lists of rows; a request/loop body is a pure
function from system state (store + the monitor's need_rescheduling flag) to
system state plus an HTTP status or response.  Calls into the container runtime
and HTTP calls to node sandboxes are modelled as boolean/string oracles passed
as parameters (the DockerService wrappers catch all runtime exceptions and
return booleans or "unknown").  Timestamps are integer seconds.
-/

namespace Kube9

/-- A node row (`models.py`, class `Node`).  SQLAlchemy `Integer` columns are
`Int`, nullable columns are `Option`, and the `_pod_ids` JSON column is the
list it stores. -/
structure Node where
  id : Nat
  name : String
  node_type : String := "worker"
  cpu_cores_avail : Int
  cpu_cores_total : Int
  health_status : String := "healthy"
  docker_container_id : Option String := none
  node_ip : Option String := none
  node_port : Int := 5000
  kubelet_status : String := "running"
  container_runtime_status : String := "running"
  kube_proxy_status : String := "running"
  node_agent_status : String := "running"
  api_server_status : Option String := none
  scheduler_status : Option String := none
  controller_status : Option String := none
  etcd_status : Option String := none
  last_heartbeat : Option Int := none
  heartbeat_interval : Int := 60
  max_heartbeat_interval : Int := 120
  recovery_attempts : Int := 0
  max_recovery_attempts : Int := 3
  pod_ids : List Nat := []
  deriving DecidableEq

/-- A pod row (`models.py`, class `Pod`).  The `node_id` column is declared
`nullable=False`, so it is a plain `Nat`, not an `Option`. -/
structure Pod where
  id : Nat
  name : String
  cpu_cores_req : Int
  node_id : Nat
  health_status : String := "pending"
  ip_address : Option String := none
  pod_type : String := "single-container"
  has_volumes : Bool := false
  has_config : Bool := false
  docker_network_id : Option String := none
  deriving DecidableEq

/-- A container row (`models.py`, class `Container`).  The `Float` column
`cpu_req` is modelled as a rational; the code never computes with it. -/
structure Container where
  id : Nat
  name : String
  image : String
  status : String := "pending"
  pod_id : Nat
  cpu_req : Rat := 0.1
  memory_req : Int := 128
  command : Option String := none
  args : Option String := none
  docker_container_id : Option String := none
  docker_status : Option String := none
  exit_code : Option Int := none
  deriving DecidableEq

/-- A volume row (`models.py`, class `Volume`). -/
structure Volume where
  id : Nat
  name : String
  volume_type : String := "emptyDir"
  size : Int := 1
  path : String
  pod_id : Nat
  docker_volume_name : Option String := none
  deriving DecidableEq

/-- A config-item row (`models.py`, class `ConfigItem`). -/
structure ConfigItem where
  id : Nat
  name : String
  config_type : String := "env"
  key : String
  value : String
  pod_id : Nat
  deriving DecidableEq

/-- `Node.add_pod` from `models.py`: append the pod id unless present. -/
def Node.add_pod (n : Node) (pid : Nat) : Node :=
  if pid ∈ n.pod_ids then n else { n with pod_ids := n.pod_ids ++ [pid] }

/-- `Node.remove_pod` from `models.py`: Python `list.remove` drops the first
occurrence. -/
def Node.remove_pod (n : Node) (pid : Nat) : Node :=
  if pid ∈ n.pod_ids then { n with pod_ids := n.pod_ids.erase pid } else n

/-- The database tables.  Rows appear in primary-key (insertion) order, which
is the order SQLAlchemy delivers for the unordered `.all()` queries here. -/
structure Store where
  nodes : List Node := []
  pods : List Pod := []
  containers : List Container := []
  volumes : List Volume := []
  config_items : List ConfigItem := []
  deriving DecidableEq

/-- Store plus the single cluster-wide `DockerMonitor.need_rescheduling` flag. -/
structure SysState where
  store : Store := {}
  need_rescheduling : Bool := false
  deriving DecidableEq

def initState : SysState := {}

/-- Replace every node row matching `nid` by `f` of it (an ORM write that is
committed). -/
def updateNode (s : Store) (nid : Nat) (f : Node → Node) : Store :=
  { s with nodes := s.nodes.map (fun n => if n.id == nid then f n else n) }

/-- Fresh primary key: SQLite assigns max existing rowid + 1. -/
def nextId (ids : List Nat) : Nat := ids.foldr max 0 + 1

/-! ### Scheduler (routes/pods.py lines 31-43, services/monitor.py lines 521-568) -/

/-- The eligibility filter both `add_pod` and `reschedule_pods` pass to
`Node.query.filter`. -/
def isEligible (cpu_cores_req : Int) (n : Node) : Bool :=
  decide (cpu_cores_req ≤ n.cpu_cores_avail) &&
  n.health_status == "healthy" &&
  n.node_type == "worker" &&
  n.kubelet_status == "running" &&
  n.container_runtime_status == "running"

def eligible_nodes (s : Store) (cpu_cores_req : Int) : List Node :=
  s.nodes.filter (isEligible cpu_cores_req)

/-- Python `min(xs, key=...)` over a nonempty list: the first element with the
minimal key wins ties. -/
def pickMin (m : Node) (xs : List Node) : Node :=
  xs.foldl (fun best x => if x.cpu_cores_avail < best.cpu_cores_avail then x else best) m

/-- Best-fit selection: `min(eligible_nodes, key=lambda n: n.cpu_cores_avail)`,
`none` when the candidate set is empty. -/
def schedulePod (s : Store) (cpu_cores_req : Int) : Option Node :=
  match eligible_nodes s cpu_cores_req with
  | [] => none
  | n :: ns => some (pickMin n ns)

/-! ### Pod creation (routes/pods.py, `add_pod`) -/

/-- One entry of the request's `containers[]`, with the handler's `.get`
defaults already resolved. -/
structure ContainerReq where
  name : String
  image : String := "nginx:latest"
  cpu_req : Rat := 0.1
  memory_req : Int := 128
  command : Option String := none
  args : Option String := none
  deriving DecidableEq

/-- One entry of the request's `volumes[]`. -/
structure VolumeReq where
  name : String
  volume_type : String := "emptyDir"
  size : Int := 1
  path : String := "/data"
  deriving DecidableEq

/-- One entry of the request's `config[]`. -/
structure ConfigReq where
  name : String
  config_type : String := "env"
  key : String := "KEY"
  value : String := "VALUE"
  deriving DecidableEq

/-- A create-pod request body. -/
structure PodRequest where
  name : String
  cpu_cores_req : Int
  containers : List ContainerReq := []
  volumes : List VolumeReq := []
  config : List ConfigReq := []
  deriving DecidableEq

/-- The rows `add_pod` inserts before the Docker phase: the pod (flushed with a
fresh id), its containers, volumes and config items, already flipped to
`running` (lines 116-119 of routes/pods.py run before the `try`). -/
def addPodRows (s : Store) (req : PodRequest) (nodeId : Nat) (ip : String) :
    Pod × List Container × List Volume × List ConfigItem :=
  let podId := nextId (s.pods.map (fun p => p.id))
  let cbase := nextId (s.containers.map (fun c => c.id))
  let vbase := nextId (s.volumes.map (fun v => v.id))
  let gbase := nextId (s.config_items.map (fun ci => ci.id))
  let pod : Pod :=
    { id := podId, name := req.name, cpu_cores_req := req.cpu_cores_req,
      node_id := nodeId, health_status := "running", ip_address := some ip,
      pod_type := if req.containers.length > 1 then "multi-container" else "single-container",
      has_volumes := req.volumes.length > 0, has_config := req.config.length > 0 }
  let containers := req.containers.enum.map (fun ic =>
    { id := cbase + ic.1, name := ic.2.name, image := ic.2.image,
      status := "running", pod_id := podId, cpu_req := ic.2.cpu_req,
      memory_req := ic.2.memory_req, command := ic.2.command, args := ic.2.args : Container })
  let volumes := req.volumes.enum.map (fun iv =>
    { id := vbase + iv.1, name := iv.2.name, volume_type := iv.2.volume_type,
      size := iv.2.size, path := iv.2.path, pod_id := podId : Volume })
  let configs := req.config.enum.map (fun ig =>
    { id := gbase + ig.1, name := ig.2.name, config_type := ig.2.config_type,
      key := ig.2.key, value := ig.2.value, pod_id := podId : ConfigItem })
  (pod, containers, volumes, configs)

/-- `add_pod` (routes/pods.py).  `ip` stands for the random 10.244.0.0/16
address, `provisionOk` for the Docker provisioning phase (network, volumes,
containers); when it is `false` the handler's `except` branch runs: Docker
resources are removed but the rows are committed with the pod marked
`failed`, the node's `cpu_cores_avail` still decremented and the pod id never
added to the node's pod list (`node.add_pod` is only reached on success).
Returns the HTTP status. -/
def add_pod (st : SysState) (req : PodRequest) (ip : String) (provisionOk : Bool) :
    SysState × Nat :=
  if req.name == "" then (st, 400)
  else if req.cpu_cores_req == 0 then (st, 400)
  else if req.containers.isEmpty then (st, 400)
  else
    match schedulePod st.store req.cpu_cores_req with
    | none => (st, 400)
    | some node =>
      let rows := addPodRows st.store req node.id ip
      let pod := rows.1
      if provisionOk then
        let s1 : Store :=
          { st.store with
            pods := st.store.pods ++
              [{ pod with docker_network_id := some ("pod-network-" ++ toString pod.id) }],
            containers := st.store.containers ++ rows.2.1.map (fun c =>
              { c with docker_container_id := some ("pod-" ++ toString pod.id ++ "-" ++ c.name),
                       docker_status := some "running" }),
            volumes := st.store.volumes ++ rows.2.2.1.map (fun v =>
              { v with
                docker_volume_name :=
                  some ("pod-" ++ toString pod.id ++ "-volume-" ++ toString v.id) }),
            config_items := st.store.config_items ++ rows.2.2.2 }
        let s2 := updateNode s1 node.id (fun n =>
          Node.add_pod { n with cpu_cores_avail := n.cpu_cores_avail - req.cpu_cores_req }
            pod.id)
        ({ st with store := s2 }, 200)
      else
        let s1 : Store :=
          { st.store with
            pods := st.store.pods ++ [{ pod with health_status := "failed" }],
            containers := st.store.containers ++ rows.2.1,
            volumes := st.store.volumes ++ rows.2.2.1,
            config_items := st.store.config_items ++ rows.2.2.2 }
        let s2 := updateNode s1 node.id (fun n =>
          { n with cpu_cores_avail := n.cpu_cores_avail - req.cpu_cores_req })
        ({ st with store := s2 }, 500)

/-- `delete_pod` (routes/pods.py): return the CPU to the node, drop the pod id
from the node's list, delete the pod row and cascade to its containers,
volumes and config items. -/
def delete_pod (st : SysState) (pid : Nat) : SysState × Nat :=
  match st.store.pods.find? (fun p => p.id == pid) with
  | none => (st, 404)
  | some pod =>
    match st.store.nodes.find? (fun n => n.id == pod.node_id) with
    | none => (st, 404)
    | some _ =>
      let s1 := updateNode st.store pod.node_id (fun n =>
        Node.remove_pod { n with cpu_cores_avail := n.cpu_cores_avail + pod.cpu_cores_req } pid)
      let s2 : Store :=
        { s1 with
          pods := s1.pods.filter (fun p => p.id != pid),
          containers := s1.containers.filter (fun c => c.pod_id != pid),
          volumes := s1.volumes.filter (fun v => v.pod_id != pid),
          config_items := s1.config_items.filter (fun ci => ci.pod_id != pid) }
      ({ st with store := s2 }, 200)

/-! ### Node creation (models.py `Node.__init__`, routes/nodes.py `create_node`) -/

/-- `Node.__init__`: after SQLAlchemy applies the keyword arguments, the
constructor unconditionally overwrites `last_heartbeat` with the current time,
`health_status` with "healthy" and `cpu_cores_total` with the
`cpu_cores_avail` keyword — including the `health_status="initializing"`
passed by `create_node`. -/
def Node.init (id : Nat) (name : String) (node_type : String) (cpu_cores_avail : Int)
    (now : Int) : Node :=
  { id := id, name := name, node_type := node_type,
    cpu_cores_avail := cpu_cores_avail,
    cpu_cores_total := cpu_cores_avail,
    health_status := "healthy",
    last_heartbeat := some now,
    pod_ids := [] }

/-- `create_node` (routes/nodes.py).  `node_type` is assumed already
lower-cased; `dockerOk`/`cid` model `DockerService.create_node_container`
(which raises on failure, rolling the transaction back). -/
def create_node (st : SysState) (name : String) (cpu_cores_avail : Int)
    (node_type : String) (now : Int) (dockerOk : Bool) (cid : String) :
    SysState × Nat :=
  if name == "" then (st, 400)
  else if cpu_cores_avail ≤ 0 then (st, 400)
  else if !(node_type == "worker" || node_type == "master") then (st, 400)
  else if (st.store.nodes.find? (fun n => n.name == name)).isSome then (st, 400)
  else if !dockerOk then (st, 500)
  else
    let nid := nextId (st.store.nodes.map (fun n => n.id))
    let node := { Node.init nid name node_type cpu_cores_avail now with
      docker_container_id := some cid, node_ip := some "localhost",
      node_port := 5000 + (nid : Int) }
    ({ st with store := { st.store with nodes := st.store.nodes ++ [node] } }, 201)

/-! ### Heartbeat ingest (routes/nodes.py, `update_heartbeat`) -/

/-- The heartbeat JSON payload; absent keys are `none`. -/
structure HeartbeatPayload where
  health_status : Option String := none
  kubelet : Option String := none
  container_runtime : Option String := none
  kube_proxy : Option String := none
  node_agent : Option String := none
  cpu_cores_avail : Option Int := none
  pod_ids : Option (List Nat) := none
  deriving DecidableEq

/-- The handler's JSON reply (flags absent from the JSON are `false`). -/
structure HeartbeatResponse where
  status : Nat
  node_status : String
  should_stop_heartbeat : Bool
  should_terminate : Bool := false
  deriving DecidableEq

/-- The row update of the normal heartbeat branch: refresh `last_heartbeat`,
adopt the reported health `hs` and components, then `cpu_cores_avail` and
`pod_ids` when present (the latter skipped when the adopted health is
`permanently_failed`). -/
def applyHeartbeat (p : HeartbeatPayload) (hs : String) (now : Int) (n : Node) : Node :=
  let n1 := { n with
              last_heartbeat := some now, health_status := hs,
              kubelet_status := p.kubelet.getD n.kubelet_status,
              container_runtime_status :=
                p.container_runtime.getD n.container_runtime_status,
              kube_proxy_status := p.kube_proxy.getD n.kube_proxy_status,
              node_agent_status := p.node_agent.getD n.node_agent_status }
  let n2 := match p.cpu_cores_avail with
    | some c => { n1 with cpu_cores_avail := c }
    | none => n1
  match p.pod_ids with
  | some ids =>
    if n2.health_status == "permanently_failed" then n2
    else { n2 with pod_ids := ids }
  | none => n2

/-- `update_heartbeat` (routes/nodes.py).  For a permanently failed node the
handler never touches `health_status` and replies stop+terminate; its
container-cleanup attempt calls `stop_container(..., force=True, is_node=True)`,
but the `DockerService` in services/docker_service.py accepts only the
container id, so the call raises `TypeError` inside the branch's `try` — the
handle-clearing and the branch's commit are never reached, and the session's
`last_heartbeat` update is discarded at request teardown, leaving the store
unchanged.  Otherwise the handler adopts the reported health (default
"healthy"), components, `cpu_cores_avail` and `pod_ids` (the latter skipped
if the adopted health is `permanently_failed`, which also sets the
rescheduling flag). -/
def update_heartbeat (st : SysState) (nid : Nat) (p : HeartbeatPayload) (now : Int) :
    SysState × HeartbeatResponse :=
  match st.store.nodes.find? (fun n => n.id == nid) with
  | none =>
    (st, { status := 404, node_status := "non_existent", should_stop_heartbeat := true })
  | some node =>
    let hs := p.health_status.getD "healthy"
    if node.health_status == "permanently_failed" then
      (st, { status := 200, node_status := "permanently_failed",
             should_stop_heartbeat := true, should_terminate := true })
    else
      let st' : SysState :=
        { store := updateNode st.store nid (applyHeartbeat p hs now),
          need_rescheduling := st.need_rescheduling || hs == "permanently_failed" }
      (st', { status := 200, node_status := hs,
              should_stop_heartbeat := hs == "permanently_failed" })

/-! ### Heartbeat sweeps -/

/-- One node of the `send_heartbeats` sweep (routes/nodes.py lines 515-566):
only nodes in the monitored states with a recorded heartbeat are touched, and
a healthy node whose heartbeat is older than `max_heartbeat_interval` is
marked failed — the `recovery_attempts` increment is commented out and no
rescheduling flag exists in this loop. -/
def hbSweepNode (now : Int) (n : Node) : Node :=
  if !(n.health_status == "healthy" || n.health_status == "recovering" ||
       n.health_status == "failed" || n.health_status == "initializing") then n
  else
    match n.last_heartbeat with
    | none => n
    | some t =>
      if n.health_status == "healthy" && decide (n.max_heartbeat_interval < now - t) then
        { n with health_status := "failed" }
      else n

/-- One tick of the `send_heartbeats` loop. -/
def hb_sweep (st : SysState) (now : Int) : SysState :=
  { st with store := { st.store with nodes := st.store.nodes.map (hbSweepNode now) } }

/-- One node of `DockerMonitor.monitor_node_health` (services/monitor.py
lines 186-248), after the startup grace period: a permanently failed node
that still lists pods just raises the rescheduling flag; a healthy node whose
heartbeat lapse strictly exceeds `max_heartbeat_interval` is marked failed
with `recovery_attempts` incremented and the flag raised, escalating to
`permanently_failed` in the same pass when the incremented count reaches
`max_recovery_attempts`.  Returns the updated node and whether the flag was
raised for it. -/
def monitorSweepNode (now : Int) (n : Node) : Node × Bool :=
  if n.health_status == "permanently_failed" && decide (0 < n.pod_ids.length) then
    (n, true)
  else
    match n.last_heartbeat with
    | none => (n, false)
    | some t =>
      if decide (n.max_heartbeat_interval < now - t) && n.health_status == "healthy" then
        let n1 := { n with health_status := "failed",
                           recovery_attempts := n.recovery_attempts + 1 }
        if decide (n1.max_recovery_attempts ≤ n1.recovery_attempts) then
          ({ n1 with health_status := "permanently_failed" }, true)
        else (n1, true)
      else (n, false)

/-- One tick of `monitor_node_health` (grace period over). -/
def monitor_node_health (st : SysState) (now : Int) : SysState :=
  let results := st.store.nodes.map (monitorSweepNode now)
  { store := { st.store with nodes := results.map Prod.fst },
    need_rescheduling := st.need_rescheduling || results.any Prod.snd }

/-- One node of `DockerMonitor.monitor_containers` (services/monitor.py lines
117-155): for nodes with a container handle that are not permanently failed,
a healthy node whose container reports `unknown` or any non-`running` status
is marked failed with `recovery_attempts` incremented and the flag raised.
`statusOf` is the `get_container_info` oracle keyed by node id. -/
def monitorContainerNode (statusOf : Nat → String) (n : Node) : Node × Bool :=
  if n.docker_container_id.isSome && n.health_status != "permanently_failed" then
    let cs := statusOf n.id
    if cs == "unknown" then
      if n.health_status == "healthy" then
        ({ n with health_status := "failed",
                  recovery_attempts := n.recovery_attempts + 1 }, true)
      else (n, false)
    else if cs != "running" && n.health_status == "healthy" then
      ({ n with health_status := "failed",
                recovery_attempts := n.recovery_attempts + 1 }, true)
    else (n, false)
  else (n, false)

/-- One tick of the `monitor_containers` loop. -/
def monitor_containers (st : SysState) (statusOf : Nat → String) : SysState :=
  let results := st.store.nodes.map (monitorContainerNode statusOf)
  { store := { st.store with nodes := results.map Prod.fst },
    need_rescheduling := st.need_rescheduling || results.any Prod.snd }

/-! ### Node recovery (services/monitor.py, `attempt_node_recovery`) -/

/-- One failed node of the recovery loop's second phase: increment
`recovery_attempts` in the session, then branch on the container status
oracle, the container-existence oracle and the restart oracle as the code
does; only branches that reach a `commit` persist their writes (a failed
restart below the cap commits nothing, so its attempts increment is
discarded by the next iteration's rollback).  Only reached for nodes that
are still failed on re-query. -/
def recoverNodeStep (statusOf : Nat → String) (existsOf : Nat → Bool)
    (startOk : Nat → Bool) (now : Int) (st : SysState) (nid : Nat) : SysState :=
  match st.store.nodes.find? (fun n => n.id == nid) with
  | none => st
  | some node =>
    if node.health_status != "failed" then st
    else
      let a := node.recovery_attempts + 1
      if statusOf nid == "running" then
        { st with store := updateNode st.store nid (fun n =>
            { n with recovery_attempts := a, health_status := "recovering" }) }
      else if !(existsOf nid) then
        if decide (node.max_recovery_attempts ≤ a) then
          { store := updateNode st.store nid (fun n =>
              { n with recovery_attempts := a, health_status := "permanently_failed" }),
            need_rescheduling := true }
        else
          { st with store := updateNode st.store nid (fun n =>
              { n with recovery_attempts := a }) }
      else if startOk nid then
        { st with store := updateNode st.store nid (fun n =>
            { n with recovery_attempts := a, last_heartbeat := some now,
                     health_status := "recovering" }) }
      else
        if decide (node.max_recovery_attempts ≤ a) then
          { store := updateNode st.store nid (fun n =>
              { n with recovery_attempts := a, health_status := "permanently_failed" }),
            need_rescheduling := true }
        else
          -- failed restart below the cap: monitor.py commits only inside the
          -- at-cap branch, so the session's attempts increment is discarded by
          -- the next iteration's rollback and the store is unchanged
          st

/-- One pass of `attempt_node_recovery`: first every failed node at or past
the attempt cap is marked permanently failed (raising the flag), then the
remaining failed nodes with a container handle go through `recoverNodeStep`. -/
def attempt_node_recovery (st : SysState) (statusOf : Nat → String)
    (existsOf : Nat → Bool) (startOk : Nat → Bool) (now : Int) : SysState :=
  let maxed := st.store.nodes.filter (fun n =>
    n.health_status == "failed" &&
    decide (n.max_recovery_attempts ≤ n.recovery_attempts))
  let st1 : SysState :=
    { store := { st.store with nodes := st.store.nodes.map (fun n =>
        if n.health_status == "failed" &&
           decide (n.max_recovery_attempts ≤ n.recovery_attempts) then
          { n with health_status := "permanently_failed" }
        else n) },
      need_rescheduling := st.need_rescheduling || !maxed.isEmpty }
  let failedIds := (st1.store.nodes.filter (fun n =>
    n.health_status == "failed" &&
    decide (n.recovery_attempts < n.max_recovery_attempts) &&
    n.docker_container_id.isSome)).map (fun n => n.id)
  failedIds.foldl (recoverNodeStep statusOf existsOf startOk now) st1

/-! ### Pod rescheduling (services/monitor.py, `reschedule_pods`) -/

/-- Cascade used when the rescheduler terminates a pod: drop the pod id from
the failed node's list, then delete the pod row and its dependent rows. -/
def terminate_pod_cascade (s : Store) (failedNodeId pid : Nat) : Store :=
  let s1 := updateNode s failedNodeId (fun n => Node.remove_pod n pid)
  { s1 with
    pods := s1.pods.filter (fun p => p.id != pid),
    containers := s1.containers.filter (fun c => c.pod_id != pid),
    volumes := s1.volumes.filter (fun v => v.pod_id != pid),
    config_items := s1.config_items.filter (fun ci => ci.pod_id != pid) }

/-- One pod of the rescheduling loop (services/monitor.py lines 506-647).
`runPodOk pid` models the `POST /run_pod` to the chosen target returning 200;
on failure the transaction is rolled back and the pod left for the next tick. -/
def reschedulePodStep (runPodOk : Nat → Bool) (failedNodeId : Nat)
    (st : SysState) (pid : Nat) : SysState :=
  match st.store.pods.find? (fun p => p.id == pid) with
  | none => st
  | some pod =>
    match schedulePod st.store pod.cpu_cores_req with
    | none => { st with store := terminate_pod_cascade st.store failedNodeId pid }
    | some target =>
      if runPodOk pid then
        let s1 := updateNode st.store failedNodeId (fun n => Node.remove_pod n pid)
        let s2 := updateNode s1 target.id (fun n =>
          { Node.add_pod n pid with
            cpu_cores_avail := (Node.add_pod n pid).cpu_cores_avail - pod.cpu_cores_req })
        let s3 := { s2 with pods := s2.pods.map (fun p =>
          if p.id == pid then { p with node_id := target.id, health_status := "running" }
          else p) }
        { st with store := s3 }
      else st

/-- One pass of `reschedule_pods`: runs only when the flag is set; with no
permanently failed node it just clears the flag; otherwise every pod row
bound to a permanently failed node goes through `reschedulePodStep` and the
flag is cleared.  The final container-cleanup loop calls
`stop_container(..., is_node=True)`, which raises `TypeError` against this
`DockerService` before the handle-clearing line, and the `except` only logs —
so that loop never changes the store. -/
def reschedule_pods (st : SysState) (runPodOk : Nat → Bool) : SysState :=
  if !st.need_rescheduling then st
  else
    let failedIds := (st.store.nodes.filter (fun n =>
      n.health_status == "permanently_failed")).map (fun n => n.id)
    if failedIds.isEmpty then { st with need_rescheduling := false }
    else
      let st1 := failedIds.foldl (fun acc nid =>
        let podIds := (acc.store.pods.filter (fun p => p.node_id == nid)).map
          (fun p => p.id)
        podIds.foldl (reschedulePodStep runPodOk nid) acc) st
      { st1 with need_rescheduling := false }

/-! ### Reaper (services/monitor.py, `reap_stale_containers`) -/

/-- One tick of the reaper over the permanently failed nodes that still hold
a container handle.  When `container_exists` (the `existsOf` oracle, keyed by
node id) reports the container present, the reaper calls
`stop_container(..., force=True, is_node=True)` — but
`DockerService.stop_container` accepts only the container id, so the call
raises `TypeError` inside the per-node `try`, the `except` rolls the session
back, and the handle is kept.  Only when the container no longer exists does
the tick reach `node.docker_container_id = None` and commit. -/
def reap_stale_containers (st : SysState) (existsOf : Nat → Bool) : SysState :=
  { st with store := { st.store with nodes := st.store.nodes.map (fun n =>
      if n.health_status == "permanently_failed" && n.docker_container_id.isSome then
        if existsOf n.id then n
        else { n with docker_container_id := none }
      else n) } }

/-! ### Remaining node routes -/

/-- `delete_node` (routes/nodes.py): refused with 400 when a node that is not
permanently failed still lists pods; otherwise the row is deleted and the
`cascade="all, delete-orphan"` relationships delete every pod referencing the
node together with that pod's containers, volumes and config items. -/
def delete_node (st : SysState) (nid : Nat) : SysState × Nat :=
  match st.store.nodes.find? (fun n => n.id == nid) with
  | none => (st, 404)
  | some node =>
    if node.health_status != "permanently_failed" && decide (0 < node.pod_ids.length) then
      (st, 400)
    else
      let deadPods := (st.store.pods.filter (fun p => p.node_id == nid)).map
        (fun p => p.id)
      let s : Store :=
        { nodes := st.store.nodes.filter (fun n => n.id != nid),
          pods := st.store.pods.filter (fun p => p.node_id != nid),
          containers := st.store.containers.filter (fun c => !(deadPods.contains c.pod_id)),
          volumes := st.store.volumes.filter (fun v => !(deadPods.contains v.pod_id)),
          config_items := st.store.config_items.filter (fun ci =>
            !(deadPods.contains ci.pod_id)) }
      ({ st with store := s }, 200)

/-- `simulate_node_failure` (routes/nodes.py): mark the node failed. -/
def simulate_node_failure (st : SysState) (nid : Nat) : SysState × Nat :=
  match st.store.nodes.find? (fun n => n.id == nid) with
  | none => (st, 404)
  | some _ =>
    ({ st with store := updateNode st.store nid (fun n =>
        { n with health_status := "failed" }) }, 200)

/-- `deregister_node` (routes/nodes.py): raise the rescheduling flag when the
node lists pods and mark it permanently failed. -/
def deregister_node (st : SysState) (nid : Nat) : SysState × Nat :=
  match st.store.nodes.find? (fun n => n.id == nid) with
  | none => (st, 404)
  | some node =>
    ({ store := updateNode st.store nid (fun n =>
         { n with health_status := "permanently_failed" }),
       need_rescheduling := st.need_rescheduling || decide (0 < node.pod_ids.length) },
     200)

/-! ### Reachability -/

/-- One control-plane event: an API request or one tick of a background loop,
with its oracle inputs. -/
inductive Step where
  | createNode (name : String) (cpu : Int) (node_type : String) (now : Int)
      (dockerOk : Bool) (cid : String)
  | addPod (req : PodRequest) (ip : String) (provisionOk : Bool)
  | deletePod (pid : Nat)
  | heartbeat (nid : Nat) (p : HeartbeatPayload) (now : Int)
  | hbSweep (now : Int)
  | monitorSweep (now : Int)
  | containerMonitor (statusOf : Nat → String)
  | recovery (statusOf : Nat → String) (existsOf : Nat → Bool) (startOk : Nat → Bool)
      (now : Int)
  | reschedule (runPodOk : Nat → Bool)
  | reap (existsOf : Nat → Bool)
  | deleteNode (nid : Nat)
  | simulateFailure (nid : Nat)
  | deregister (nid : Nat)

def applyStep (st : SysState) : Step → SysState
  | .createNode name cpu t now ok cid => (create_node st name cpu t now ok cid).1
  | .addPod req ip ok => (add_pod st req ip ok).1
  | .deletePod pid => (delete_pod st pid).1
  | .heartbeat nid p now => (update_heartbeat st nid p now).1
  | .hbSweep now => hb_sweep st now
  | .monitorSweep now => monitor_node_health st now
  | .containerMonitor statusOf => monitor_containers st statusOf
  | .recovery statusOf existsOf startOk now =>
      attempt_node_recovery st statusOf existsOf startOk now
  | .reschedule runPodOk => reschedule_pods st runPodOk
  | .reap existsOf => reap_stale_containers st existsOf
  | .deleteNode nid => (delete_node st nid).1
  | .simulateFailure nid => (simulate_node_failure st nid).1
  | .deregister nid => (deregister_node st nid).1

def runSteps (steps : List Step) : SysState := steps.foldl applyStep initState

/-- A state of the control plane reachable from the empty cluster. -/
def Reachable (st : SysState) : Prop := ∃ steps, runSteps steps = st

/-! ### Stated invariants -/

/-- Sum of `cpu_cores_req` over the running pods bound to node `nid`. -/
def runningPodsSum (s : Store) (nid : Nat) : Int :=
  ((s.pods.filter (fun p => p.node_id == nid && p.health_status == "running")).map
    (fun p => p.cpu_cores_req)).sum

/-- Invariant I1 of the spec: every node's total equals its available cores
plus the demand of its running pods. -/
def nodeInvariantI1 (s : Store) : Prop :=
  ∀ n ∈ s.nodes, n.cpu_cores_total = n.cpu_cores_avail + runningPodsSum s n.id

/-- Referential integrity: every pod's `node_id` names a stored node (the
foreign-key constraint). -/
def RefIntegrity (s : Store) : Prop :=
  ∀ p ∈ s.pods, ∃ n ∈ s.nodes, p.node_id = n.id

/-- Total demand of all pod rows in the store. -/
def clusterCpuReqSum (s : Store) : Int := (s.pods.map (fun p => p.cpu_cores_req)).sum

/-- Lower half of invariant I4: no node has a negative `recovery_attempts`. -/
def NonnegAttempts (st : SysState) : Prop :=
  ∀ n ∈ st.store.nodes, 0 ≤ n.recovery_attempts

/-- Every node still marked `failed` is strictly below the recovery-attempt
cap (any failed node at or past the cap has been escalated). -/
def FailedBelowCap (st : SysState) : Prop :=
  ∀ n ∈ st.store.nodes, n.health_status = "failed" →
    n.recovery_attempts < n.max_recovery_attempts

/-! ### Concrete fixtures used by counterexamples and witnesses -/

def wNodeA : Node := { id := 1, name := "A", cpu_cores_avail := 4, cpu_cores_total := 4 }

def wNodeB : Node := { id := 2, name := "B", cpu_cores_avail := 8, cpu_cores_total := 8 }

def wStAB : SysState := { store := { nodes := [wNodeA, wNodeB] } }

def wReq3 : PodRequest :=
  { name := "p1", cpu_cores_req := 3, containers := [{ name := "c1" }] }

def cxNodeE : Node :=
  { id := 1, name := "E", cpu_cores_avail := 0, cpu_cores_total := 2,
    health_status := "permanently_failed", pod_ids := [10] }

def cxNodeF : Node := { id := 2, name := "F", cpu_cores_avail := 2, cpu_cores_total := 2 }

def cxPodR : Pod :=
  { id := 10, name := "R", cpu_cores_req := 2, node_id := 1, health_status := "running" }

def cxSt4 : SysState :=
  { store := { nodes := [cxNodeE, cxNodeF], pods := [cxPodR] }, need_rescheduling := true }

def wPfNode : Node :=
  { id := 3, name := "PF", cpu_cores_avail := 1, cpu_cores_total := 1,
    health_status := "permanently_failed", docker_container_id := some "sandbox-3" }

def wSt5 : SysState := { store := { nodes := [wPfNode] } }

def cxNodeC6 : Node :=
  { id := 1, name := "C", cpu_cores_avail := 2, cpu_cores_total := 2,
    recovery_attempts := 2, last_heartbeat := some 0 }

def cxTr3 : List Step :=
  [.createNode "n1" 4 "worker" 0 true "c1",
   .heartbeat 1 { cpu_cores_avail := some 1 } 10]

def cxTr7 : List Step :=
  [.createNode "n1" 4 "worker" 0 true "c1",
   .containerMonitor (fun _ => "exited"),
   .heartbeat 1 {} 10,
   .containerMonitor (fun _ => "exited"),
   .heartbeat 1 {} 20,
   .containerMonitor (fun _ => "exited"),
   .heartbeat 1 {} 30,
   .containerMonitor (fun _ => "exited")]

def wFailedNode7 : Node :=
  { id := 1, name := "G", cpu_cores_avail := 2, cpu_cores_total := 2,
    health_status := "failed", recovery_attempts := 0, docker_container_id := some "c" }

def wSt7 : SysState := { store := { nodes := [wFailedNode7] } }

def wStD : SysState :=
  { store := { nodes := [cxNodeE, cxNodeF], pods := [cxPodR],
               containers := [{ id := 1, name := "k", image := "i", pod_id := 10 }] } }

instance (s : Store) : Decidable (nodeInvariantI1 s) := by
  unfold nodeInvariantI1; infer_instance

instance (s : Store) : Decidable (RefIntegrity s) := by
  unfold RefIntegrity; infer_instance

theorem pickMin_cons (m a : Node) (xs : List Node) :
    pickMin m (a :: xs) =
      pickMin (if a.cpu_cores_avail < m.cpu_cores_avail then a else m) xs := rfl

theorem pickMin_mem (xs : List Node) : ∀ m, pickMin m xs = m ∨ pickMin m xs ∈ xs := by
  induction xs with
  | nil => intro m; exact Or.inl rfl
  | cons a xs ih =>
    intro m
    rw [pickMin_cons]
    rcases ih (if a.cpu_cores_avail < m.cpu_cores_avail then a else m) with h | h
    · rw [h]
      split
      · exact Or.inr (List.mem_cons_self a xs)
      · exact Or.inl rfl
    · exact Or.inr (List.mem_cons_of_mem a h)

theorem pickMin_le_self (xs : List Node) :
    ∀ m, (pickMin m xs).cpu_cores_avail ≤ m.cpu_cores_avail := by
  induction xs with
  | nil => intro m; exact le_refl _
  | cons a xs ih =>
    intro m
    rw [pickMin_cons]
    refine le_trans (ih _) ?_
    split
    · exact le_of_lt (by assumption)
    · exact le_refl _

theorem pickMin_le (xs : List Node) :
    ∀ m, ∀ x ∈ m :: xs, (pickMin m xs).cpu_cores_avail ≤ x.cpu_cores_avail := by
  induction xs with
  | nil =>
    intro m x hx
    rcases List.mem_singleton.mp hx with rfl
    exact le_refl _
  | cons a xs ih =>
    intro m x hx
    rw [pickMin_cons]
    rcases List.mem_cons.mp hx with rfl | hx
    · refine le_trans (pickMin_le_self _ _) ?_
      split
      · exact le_of_lt (by assumption)
      · exact le_refl _
    · rcases List.mem_cons.mp hx with rfl | hx
      · refine le_trans (pickMin_le_self _ _) ?_
        split
        · exact le_refl _
        · exact le_of_not_lt (by assumption)
      · exact ih _ x (List.mem_cons_of_mem _ hx)

theorem pickMin_eq_or_lt (xs : List Node) :
    ∀ m, pickMin m xs = m ∨ (pickMin m xs).cpu_cores_avail < m.cpu_cores_avail := by
  induction xs with
  | nil => intro m; exact Or.inl rfl
  | cons a xs ih =>
    intro m
    rw [pickMin_cons]
    by_cases h : a.cpu_cores_avail < m.cpu_cores_avail
    · rw [if_pos h]
      rcases ih a with h2 | h2
      · rw [h2]; exact Or.inr h
      · exact Or.inr (lt_trans h2 h)
    · rw [if_neg h]
      exact ih m

theorem pickMin_tie (xs : List Node) :
    ∀ m, (m :: xs).Pairwise (fun a b => a.id < b.id) →
      ∀ x ∈ m :: xs, x.cpu_cores_avail = (pickMin m xs).cpu_cores_avail →
      (pickMin m xs).id ≤ x.id := by
  induction xs with
  | nil =>
    intro m _ x hx _
    rcases List.mem_singleton.mp hx with rfl
    exact le_refl _
  | cons a xs ih =>
    intro m hpw x hx heq
    rw [pickMin_cons] at heq ⊢
    obtain ⟨hm, hpa⟩ := List.pairwise_cons.mp hpw
    by_cases hlt : a.cpu_cores_avail < m.cpu_cores_avail
    · rw [if_pos hlt] at heq ⊢
      rcases List.mem_cons.mp hx with rfl | hx
      · exfalso
        have h1 : (pickMin a xs).cpu_cores_avail ≤ a.cpu_cores_avail :=
          pickMin_le_self xs a
        have h2 : (pickMin a xs).cpu_cores_avail < x.cpu_cores_avail :=
          lt_of_le_of_lt h1 hlt
        exact absurd heq (ne_of_gt h2)
      · exact ih a hpa x hx heq
    · rw [if_neg hlt] at heq ⊢
      have hpm : (m :: xs).Pairwise (fun a b => a.id < b.id) := by
        refine List.pairwise_cons.mpr ⟨?_, (List.pairwise_cons.mp hpa).2⟩
        intro y hy
        exact hm y (List.mem_cons_of_mem a hy)
      rcases List.mem_cons.mp hx with rfl | hx
      · exact ih x hpm x (List.mem_cons_self _ _) heq
      · rcases List.mem_cons.mp hx with rfl | hx
        · rcases pickMin_eq_or_lt xs m with h2 | h2
          · rw [h2]
            exact le_of_lt (hm x (List.mem_cons_self _ _))
          · exfalso
            have : x.cpu_cores_avail < m.cpu_cores_avail := heq ▸ h2
            exact absurd (le_of_not_lt hlt) (not_le_of_lt this)
        · exact ih m hpm x (List.mem_cons_of_mem m hx) heq

/-! ### Helper lemmas -/

theorem add_pod_id (n : Node) (pid : Nat) : (Node.add_pod n pid).id = n.id := by
  unfold Node.add_pod; split <;> rfl

theorem add_pod_avail (n : Node) (pid : Nat) :
    (Node.add_pod n pid).cpu_cores_avail = n.cpu_cores_avail := by
  unfold Node.add_pod; split <;> rfl

theorem add_pod_total (n : Node) (pid : Nat) :
    (Node.add_pod n pid).cpu_cores_total = n.cpu_cores_total := by
  unfold Node.add_pod; split <;> rfl

theorem add_pod_attempts (n : Node) (pid : Nat) :
    (Node.add_pod n pid).recovery_attempts = n.recovery_attempts := by
  unfold Node.add_pod; split <;> rfl

theorem add_pod_health (n : Node) (pid : Nat) :
    (Node.add_pod n pid).health_status = n.health_status := by
  unfold Node.add_pod; split <;> rfl

theorem mem_add_pod (n : Node) (pid : Nat) : pid ∈ (Node.add_pod n pid).pod_ids := by
  unfold Node.add_pod
  split
  · assumption
  · exact List.mem_append.mpr (Or.inr (List.mem_singleton.mpr rfl))

theorem remove_pod_pod_ids (n : Node) (pid : Nat) :
    (Node.remove_pod n pid).pod_ids = n.pod_ids.erase pid := by
  unfold Node.remove_pod
  split
  · rfl
  · exact (List.erase_of_not_mem (by assumption)).symm

theorem remove_pod_id (n : Node) (pid : Nat) : (Node.remove_pod n pid).id = n.id := by
  unfold Node.remove_pod; split <;> rfl

theorem remove_pod_avail (n : Node) (pid : Nat) :
    (Node.remove_pod n pid).cpu_cores_avail = n.cpu_cores_avail := by
  unfold Node.remove_pod; split <;> rfl

theorem remove_pod_total (n : Node) (pid : Nat) :
    (Node.remove_pod n pid).cpu_cores_total = n.cpu_cores_total := by
  unfold Node.remove_pod; split <;> rfl

theorem remove_pod_attempts (n : Node) (pid : Nat) :
    (Node.remove_pod n pid).recovery_attempts = n.recovery_attempts := by
  unfold Node.remove_pod; split <;> rfl

theorem remove_pod_health (n : Node) (pid : Nat) :
    (Node.remove_pod n pid).health_status = n.health_status := by
  unfold Node.remove_pod; split <;> rfl

theorem eq_of_mem_of_nodup_ids {l : List Node}
    (h : (l.map (fun n => n.id)).Nodup) {a b : Node}
    (ha : a ∈ l) (hb : b ∈ l) (hid : a.id = b.id) : a = b :=
  List.inj_on_of_nodup_map h ha hb hid

theorem le_foldr_max (ids : List Nat) : ∀ x ∈ ids, x ≤ ids.foldr max 0 := by
  induction ids with
  | nil => intro x hx; cases hx
  | cons a t ih =>
    intro x hx
    rcases List.mem_cons.mp hx with rfl | h
    · exact le_max_left _ _
    · exact le_trans (ih x h) (le_max_right _ _)

theorem lt_nextId (ids : List Nat) (x : Nat) (hx : x ∈ ids) : x < nextId ids := by
  have := le_foldr_max ids x hx
  unfold nextId
  omega

theorem foldl_preserve {α β : Type} (P : α → Prop) (f : α → β → α)
    (h : ∀ a b, P a → P (f a b)) :
    ∀ (l : List β) (a : α), P a → P (l.foldl f a) := by
  intro l
  induction l with
  | nil => intro a ha; exact ha
  | cons x xs ih => intro a ha; exact ih (f a x) (h a x ha)

theorem mem_updateNode {s : Store} {nid : Nat} {f : Node → Node} {m : Node}
    (hm : m ∈ (updateNode s nid f).nodes) :
    ∃ n ∈ s.nodes, m = if n.id == nid then f n else n := by
  rcases List.mem_map.mp hm with ⟨n, hn, he⟩
  exact ⟨n, hn, he.symm⟩

/-! ### C9 -/

/-- C9: the claim says a created node starts in `initializing` with a null
`last_heartbeat` and becomes healthy only on its first heartbeat.  The code
contradicts itself: `create_node` passes `health_status="initializing"`, but
`Node.__init__` unconditionally overwrites the health with "healthy" and the
heartbeat timestamp with the current time, so the created node is already
healthy with a non-null `last_heartbeat` before any heartbeat arrives. -/
theorem create_node_already_healthy_c9 :
    (create_node initState "node-1" 4 "worker" 1000 true "cid-1").2 = 201 ∧
    ((create_node initState "node-1" 4 "worker" 1000 true "cid-1").1.store.nodes.map
      (fun n => (n.health_status, n.last_heartbeat))) = [("healthy", some 1000)] := by
  exact ⟨rfl, rfl⟩

/-! ### C8 -/

/-- C8: the claim (spec I3) says that after a reaper tick no permanently
failed node still holds a sandbox handle — the reaper stops and removes the
container and clears `docker_container_id`.  The code plainly intends that
(it logs "Successfully cleaned up container"), but its calls pass `force`
and `is_node` keyword arguments that `DockerService.stop_container` and
`remove_container` do not accept, so whenever the container still exists the
call raises `TypeError` before either wrapper body runs, the per-node
handler rolls back, and the handle is kept; the clearing line is reached
only when the container is already gone.  Evaluated at a permanently failed
node holding handle "sandbox-3": with the container existing the handle
survives the tick (refuting the claim); with it absent the handle is
cleared. -/
theorem reaper_keeps_handle_c8 :
    wPfNode.health_status = "permanently_failed" ∧
    wPfNode.docker_container_id = some "sandbox-3" ∧
    ((reap_stale_containers wSt5 (fun _ => true)).store.nodes.map
      (fun n => n.docker_container_id)) = [some "sandbox-3"] ∧
    ((reap_stale_containers wSt5 (fun _ => false)).store.nodes.map
      (fun n => n.docker_container_id)) = [none] :=
  ⟨rfl, rfl, rfl, rfl⟩

/-! ### C5 -/

/-- C5: for a node whose health is `permanently_failed`, any received
heartbeat leaves the health unchanged and the reply carries
`should_stop_heartbeat = true` and `should_terminate = true` (the handler
only refreshes `last_heartbeat` and may clear the container handle). -/
theorem heartbeat_pf_monotone_c5 (st : SysState) (nid : Nat) (p : HeartbeatPayload)
    (now : Int) (n : Node)
    (hfind : st.store.nodes.find? (fun m => m.id == nid) = some n)
    (hpf : n.health_status = "permanently_failed")
    (hnodup : (st.store.nodes.map (fun m => m.id)).Nodup) :
    (∀ m ∈ (update_heartbeat st nid p now).1.store.nodes,
      m.id = nid → m.health_status = "permanently_failed") ∧
    (update_heartbeat st nid p now).2.should_stop_heartbeat = true ∧
    (update_heartbeat st nid p now).2.should_terminate = true := by
  have hmem : n ∈ st.store.nodes := List.mem_of_find?_eq_some hfind
  have hnid : (n.id == nid) = true := by
    have h := List.find?_some hfind
    exact h
  have hb : (n.health_status == "permanently_failed") = true := beq_iff_eq.mpr hpf
  unfold update_heartbeat
  rw [hfind]
  dsimp only
  rw [if_pos hb]
  refine ⟨?_, rfl, rfl⟩
  intro m hm hmid
  have hmn : m = n :=
    eq_of_mem_of_nodup_ids hnodup hm hmem (hmid.trans (beq_iff_eq.mp hnid).symm)
  rw [hmn, hpf]

/-! ### C1 -/

/-- C1: for create-pod and reschedule requests the scheduler's candidate set
is exactly the worker nodes that are healthy, with kubelet and container
runtime running and `cpu_cores_avail ≥ cpu_cores_req` (equality is eligible);
an empty set yields no-fit (`schedulePod = none`, and the create-pod handler
answers 400 leaving the state untouched); otherwise the candidate with
minimal `cpu_cores_avail` is chosen, ties broken by smallest node id (rows
arrive in primary-key order and Python `min` keeps the first minimum). -/
theorem scheduler_best_fit_c1 (st : SysState) (req : PodRequest)
    (hsorted : st.store.nodes.Pairwise (fun a b => a.id < b.id)) :
    (∀ n, n ∈ eligible_nodes st.store req.cpu_cores_req ↔
      (n ∈ st.store.nodes ∧ n.node_type = "worker" ∧ n.health_status = "healthy" ∧
       n.kubelet_status = "running" ∧ n.container_runtime_status = "running" ∧
       req.cpu_cores_req ≤ n.cpu_cores_avail)) ∧
    (schedulePod st.store req.cpu_cores_req = none ↔
      eligible_nodes st.store req.cpu_cores_req = []) ∧
    (∀ n, schedulePod st.store req.cpu_cores_req = some n →
      n ∈ eligible_nodes st.store req.cpu_cores_req ∧
      ∀ m ∈ eligible_nodes st.store req.cpu_cores_req,
        n.cpu_cores_avail ≤ m.cpu_cores_avail ∧
        (m.cpu_cores_avail = n.cpu_cores_avail → n.id ≤ m.id)) ∧
    (∀ ip ok, req.name ≠ "" → req.cpu_cores_req ≠ 0 → req.containers ≠ [] →
      schedulePod st.store req.cpu_cores_req = none →
      add_pod st req ip ok = (st, 400)) := by
  refine ⟨?_, ?_, ?_, ?_⟩
  · intro n
    simp only [eligible_nodes, List.mem_filter, isEligible, Bool.and_eq_true,
      decide_eq_true_eq, beq_iff_eq]
    tauto
  · cases h : eligible_nodes st.store req.cpu_cores_req with
    | nil => simp [schedulePod, h]
    | cons a l => simp [schedulePod, h]
  · intro n hs
    unfold schedulePod at hs
    cases h : eligible_nodes st.store req.cpu_cores_req with
    | nil => rw [h] at hs; cases hs
    | cons a l =>
      rw [h] at hs
      have hn : n = pickMin a l := (Option.some_inj.mp hs).symm
      have hpw : (a :: l).Pairwise (fun x y => x.id < y.id) :=
        List.Pairwise.sublist (h ▸ List.filter_sublist st.store.nodes) hsorted
      constructor
      · rw [hn]
        rcases pickMin_mem l a with h2 | h2
        · rw [h2]; exact List.mem_cons_self _ _
        · exact List.mem_cons_of_mem _ h2
      · intro m hm
        constructor
        · rw [hn]; exact pickMin_le l a m hm
        · intro he
          rw [hn]
          exact pickMin_tie l a hpw m hm (by rw [← hn, he, hn])
  · intro ip ok h1 h2 h3 hnone
    unfold add_pod
    rw [if_neg (fun hc => h1 (beq_iff_eq.mp hc)),
        if_neg (fun hc => h2 (beq_iff_eq.mp hc)),
        if_neg (fun hc => h3 (List.isEmpty_iff.mp hc))]
    rw [hnone]

/-! ### C10 -/

/-- C10: the pod schema binds every pod row to a node (`node_id` is declared
`nullable=False`, embedded here as a plain `Nat`), and deleting a node
cascade-deletes every pod row still referencing it together with those pods'
containers. -/
theorem delete_node_cascade_c10 (st : SysState) (nid : Nat) (node : Node)
    (hfind : st.store.nodes.find? (fun n => n.id == nid) = some node)
    (hok : node.health_status = "permanently_failed" ∨ node.pod_ids = []) :
    (delete_node st nid).2 = 200 ∧
    (∀ m ∈ (delete_node st nid).1.store.nodes, m.id ≠ nid) ∧
    (∀ p ∈ (delete_node st nid).1.store.pods, p.node_id ≠ nid) ∧
    (∀ c ∈ (delete_node st nid).1.store.containers,
      ∀ p ∈ st.store.pods, p.id = c.pod_id → p.node_id ≠ nid) := by
  have hguard : (node.health_status != "permanently_failed" &&
      decide (0 < node.pod_ids.length)) = false := by
    rcases hok with h | h
    · rw [h]; rfl
    · rw [h]; exact Bool.and_false _
  unfold delete_node
  rw [hfind]
  dsimp only
  rw [if_neg (by rw [hguard]; exact Bool.false_ne_true)]
  refine ⟨rfl, ?_, ?_, ?_⟩
  · intro m hm
    have h := (List.mem_filter.mp hm).2
    exact bne_iff_ne.mp h
  · intro p hp
    have h := (List.mem_filter.mp hp).2
    exact bne_iff_ne.mp h
  · intro c hc p hp hpid hnode
    have h := (List.mem_filter.mp hc).2
    have hmemdead : c.pod_id ∈ (st.store.pods.filter
        (fun q => q.node_id == nid)).map (fun q => q.id) := by
      rw [← hpid]
      exact List.mem_map_of_mem _
        (List.mem_filter.mpr ⟨hp, beq_iff_eq.mpr hnode⟩)
    have := List.elem_eq_true_of_mem hmemdead
    rw [List.contains] at h
    rw [this] at h
    cases h

theorem schedulePod_mem {s : Store} {req : Int} {node : Node}
    (h : schedulePod s req = some node) :
    node ∈ s.nodes ∧ isEligible req node = true := by
  unfold schedulePod at h
  cases he : eligible_nodes s req with
  | nil => rw [he] at h; cases h
  | cons a l =>
    rw [he] at h
    have hn : node = pickMin a l := (Option.some_inj.mp h).symm
    have hmem : node ∈ a :: l := by
      rw [hn]
      rcases pickMin_mem l a with h2 | h2
      · rw [h2]; exact List.mem_cons_self _ _
      · exact List.mem_cons_of_mem _ h2
    have hm2 : node ∈ eligible_nodes s req := he ▸ hmem
    exact ⟨(List.mem_filter.mp hm2).1, (List.mem_filter.mp hm2).2⟩

/-! ### C2 -/

/-- C2 (amended): when a sandbox-provisioning step fails during create-pod,
the handler does not roll the transaction back — it removes the Docker
resources it created, marks the pod `failed` and commits, so the pod row and
its container rows remain, the chosen node's `cpu_cores_avail` stays
decremented (the pod id is never added to the node's list), and the request
answers 500. -/
theorem add_pod_failure_commits_c2 (st : SysState) (req : PodRequest) (ip : String)
    (node : Node)
    (hname : req.name ≠ "") (hcpu : req.cpu_cores_req ≠ 0) (hcont : req.containers ≠ [])
    (hsched : schedulePod st.store req.cpu_cores_req = some node)
    (hnodup : (st.store.nodes.map (fun n => n.id)).Nodup) :
    (add_pod st req ip false).2 = 500 ∧
    (∃ p ∈ (add_pod st req ip false).1.store.pods,
      p.name = req.name ∧ p.health_status = "failed" ∧ p.node_id = node.id ∧
      p.cpu_cores_req = req.cpu_cores_req) ∧
    (∀ m ∈ (add_pod st req ip false).1.store.nodes, m.id = node.id →
      m.cpu_cores_avail = node.cpu_cores_avail - req.cpu_cores_req ∧
      m.pod_ids = node.pod_ids) ∧
    (add_pod st req ip false).1.store.containers.length =
      st.store.containers.length + req.containers.length := by
  have hnmem : node ∈ st.store.nodes := (schedulePod_mem hsched).1
  unfold add_pod
  rw [if_neg (fun hc => hname (beq_iff_eq.mp hc)),
      if_neg (fun hc => hcpu (beq_iff_eq.mp hc)),
      if_neg (fun hc => hcont (List.isEmpty_iff.mp hc)),
      hsched]
  dsimp only
  rw [if_neg (fun hc => Bool.false_ne_true hc)]
  refine ⟨rfl, ?_, ?_, ?_⟩
  · refine ⟨{ (addPodRows st.store req node.id ip).1 with health_status := "failed" },
      List.mem_append.mpr (Or.inr (List.mem_singleton.mpr rfl)), rfl, rfl, rfl, rfl⟩
  · intro m hm hmid
    rcases mem_updateNode hm with ⟨n0, hn0, he⟩
    by_cases h0 : (n0.id == node.id) = true
    · rw [if_pos h0] at he
      have hne : n0 = node := eq_of_mem_of_nodup_ids hnodup hn0 hnmem (beq_iff_eq.mp h0)
      subst he
      rw [hne]
      exact ⟨rfl, rfl⟩
    · rw [if_neg h0] at he
      subst he
      exact absurd (beq_iff_eq.mpr hmid) h0
  · show (st.store.containers ++ (addPodRows st.store req node.id ip).2.1).length = _
    rw [List.length_append]
    congr 1
    show (req.containers.enum.map _).length = _
    rw [List.length_map, List.enum_length]

/-- C2 counterexample: a concrete store with one healthy worker (4 cores) and
a valid 3-core pod request whose provisioning fails: the claimed rollback
does not happen — a pod row committed as `failed` remains, a container row
remains, and the node's `cpu_cores_avail` stays decremented to 1. -/
theorem add_pod_no_rollback_counterexample_c2 :
    (add_pod wStAB wReq3 "10.244.9.9" false).2 = 500 ∧
    ((add_pod wStAB wReq3 "10.244.9.9" false).1.store.pods.map
      (fun p => (p.name, p.health_status, p.node_id))) = [("p1", "failed", 1)] ∧
    ((add_pod wStAB wReq3 "10.244.9.9" false).1.store.nodes.map
      (fun n => n.cpu_cores_avail)) = [1, 8] ∧
    (add_pod wStAB wReq3 "10.244.9.9" false).1.store.containers.length = 1 := by
  refine ⟨rfl, rfl, rfl, rfl⟩

/-! ### C6 -/

/-- C6 (amended): for a healthy node with a recorded heartbeat, the monitor's
periodic sweep acts exactly when `now - last_heartbeat` strictly exceeds
`max_heartbeat_interval` — it increments `recovery_attempts`, raises the
rescheduling flag, and sets the health to `failed`, escalating to
`permanently_failed` in the same pass when the incremented count reaches
`max_recovery_attempts`; at `now - last_heartbeat = max_heartbeat_interval`
nothing changes.  The secondary `send_heartbeats` sweep marks the node
`failed` under the same strict condition but touches neither
`recovery_attempts` nor the flag. -/
theorem sweep_threshold_c6 (now t : Int) (n : Node)
    (hh : n.health_status = "healthy") (hlb : n.last_heartbeat = some t) :
    (now - t ≤ n.max_heartbeat_interval →
      monitorSweepNode now n = (n, false) ∧ hbSweepNode now n = n) ∧
    (n.max_heartbeat_interval < now - t →
      (monitorSweepNode now n).2 = true ∧
      (monitorSweepNode now n).1.recovery_attempts = n.recovery_attempts + 1 ∧
      (monitorSweepNode now n).1.health_status =
        (if n.max_recovery_attempts ≤ n.recovery_attempts + 1 then "permanently_failed"
         else "failed") ∧
      hbSweepNode now n = { n with health_status := "failed" }) := by
  constructor
  · intro ha
    have hd : decide (n.max_heartbeat_interval < now - t) = false :=
      decide_eq_false (not_lt.mpr ha)
    constructor
    · simp [monitorSweepNode, hh, hlb, hd]
    · simp [hbSweepNode, hh, hlb, hd]
  · intro hbig
    have hd : decide (n.max_heartbeat_interval < now - t) = true := decide_eq_true hbig
    by_cases hc : n.max_recovery_attempts ≤ n.recovery_attempts + 1
    · refine ⟨?_, ?_, ?_, ?_⟩ <;>
        simp [monitorSweepNode, hbSweepNode, hh, hlb, hd, hc]
    · refine ⟨?_, ?_, ?_, ?_⟩ <;>
        simp [monitorSweepNode, hbSweepNode, hh, hlb, hd, hc]

/-- C6 counterexample: a healthy node with `recovery_attempts = 2` and
`max_recovery_attempts = 3`, 121 seconds after its last heartbeat
(`max_heartbeat_interval = 120`): the sweep leaves it `permanently_failed`,
not `failed` as the claim states. -/
theorem sweep_escalates_counterexample_c6 :
    cxNodeC6.health_status = "healthy" ∧
    cxNodeC6.max_heartbeat_interval < 121 - 0 ∧
    (monitorSweepNode 121 cxNodeC6).1.health_status = "permanently_failed" ∧
    (monitorSweepNode 121 cxNodeC6).1.health_status ≠ "failed" := by
  refine ⟨rfl, by decide, rfl, by decide⟩

theorem isEligible_parts {req : Int} {n : Node} (h : isEligible req n = true) :
    req ≤ n.cpu_cores_avail ∧ n.health_status = "healthy" ∧ n.node_type = "worker" := by
  unfold isEligible at h
  simp only [Bool.and_eq_true, beq_iff_eq, decide_eq_true_eq] at h
  exact ⟨h.1.1.1.1, h.1.1.1.2, h.1.1.2⟩

theorem clusterSum_map_rebind (l : List Pod) (pid : Nat) (tid : Nat) :
    ((l.map (fun p => if p.id == pid then
        { p with node_id := tid, health_status := "running" } else p)).map
      (fun p => p.cpu_cores_req)).sum =
    (l.map (fun p => p.cpu_cores_req)).sum := by
  rw [List.map_map]
  congr 1
  apply List.map_congr_left
  intro p _
  show (if p.id == pid then
    { p with node_id := tid, health_status := "running" } else p).cpu_cores_req =
    p.cpu_cores_req
  split <;> rfl

/-! ### C4 -/

/-- C4 (amended): in a rescheduler pass, a pod row bound to a permanently
failed node is relocated — removed from the failed node's pod list, added to
the best-fit target's list, the target's `cpu_cores_avail` decremented by the
pod's `cpu_cores_req`, the pod rebound with health `running`, leaving the
cluster-wide sum of `cpu_cores_req` unchanged — when an eligible target
exists and that target accepts the `run_pod` request; it is deleted with
cascade after removal from the failed node's list when no eligible node
exists; and when the target rejects the request the transaction is rolled
back and the pod is left in place for the next tick. -/
theorem reschedule_step_trichotomy_c4 (st : SysState) (runPodOk : Nat → Bool)
    (failedId pid : Nat) (pod : Pod) (fnode : Node)
    (hpod : st.store.pods.find? (fun p => p.id == pid) = some pod)
    (hfn : st.store.nodes.find? (fun n => n.id == failedId) = some fnode)
    (hfpf : fnode.health_status = "permanently_failed")
    (hnodup : (st.store.nodes.map (fun n => n.id)).Nodup) :
    (schedulePod st.store pod.cpu_cores_req = none →
      (∀ q ∈ (reschedulePodStep runPodOk failedId st pid).store.pods, q.id ≠ pid) ∧
      (∀ c ∈ (reschedulePodStep runPodOk failedId st pid).store.containers,
        c.pod_id ≠ pid) ∧
      (∀ m ∈ (reschedulePodStep runPodOk failedId st pid).store.nodes,
        m.id = failedId → m.pod_ids = fnode.pod_ids.erase pid)) ∧
    (∀ target, schedulePod st.store pod.cpu_cores_req = some target →
      runPodOk pid = true →
      (∀ m ∈ (reschedulePodStep runPodOk failedId st pid).store.nodes,
        (m.id = failedId → m.pod_ids = fnode.pod_ids.erase pid) ∧
        (m.id = target.id →
          m.cpu_cores_avail = target.cpu_cores_avail - pod.cpu_cores_req ∧
          pid ∈ m.pod_ids)) ∧
      (∀ q ∈ (reschedulePodStep runPodOk failedId st pid).store.pods,
        q.id = pid → q.node_id = target.id ∧ q.health_status = "running") ∧
      clusterCpuReqSum (reschedulePodStep runPodOk failedId st pid).store =
        clusterCpuReqSum st.store) ∧
    (∀ target, schedulePod st.store pod.cpu_cores_req = some target →
      runPodOk pid = false →
      reschedulePodStep runPodOk failedId st pid = st) := by
  have hfmem : fnode ∈ st.store.nodes := List.mem_of_find?_eq_some hfn
  have hfid : (fnode.id == failedId) = true := by
    have h := List.find?_some hfn
    exact h
  refine ⟨?_, ?_, ?_⟩
  · intro hnone
    simp only [reschedulePodStep, hpod, hnone]
    refine ⟨?_, ?_, ?_⟩
    · intro q hq
      exact bne_iff_ne.mp (List.mem_filter.mp hq).2
    · intro c hc
      exact bne_iff_ne.mp (List.mem_filter.mp hc).2
    · intro m hm hmid
      rcases mem_updateNode hm with ⟨n0, hn0, he⟩
      by_cases h0 : (n0.id == failedId) = true
      · rw [if_pos h0] at he
        have hne : n0 = fnode := eq_of_mem_of_nodup_ids hnodup hn0 hfmem
          ((beq_iff_eq.mp h0).trans (beq_iff_eq.mp hfid).symm)
        subst he
        rw [hne, remove_pod_pod_ids]
      · rw [if_neg h0] at he
        subst he
        exact absurd (beq_iff_eq.mpr hmid) h0
  · intro target hsome hok
    have htmem : target ∈ st.store.nodes := (schedulePod_mem hsome).1
    have hth : target.health_status = "healthy" := (isEligible_parts (schedulePod_mem hsome).2).2.1
    have htne : target.id ≠ failedId := by
      intro hcontra
      have heq2 : target = fnode := eq_of_mem_of_nodup_ids hnodup htmem hfmem
        (hcontra.trans (beq_iff_eq.mp hfid).symm)
      rw [heq2, hfpf] at hth
      exact absurd hth (by decide)
    simp only [reschedulePodStep, hpod, hsome, hok, if_true]
    refine ⟨?_, ?_, ?_⟩
    · intro m hm
      rcases mem_updateNode hm with ⟨n1, hn1, he1⟩
      rcases mem_updateNode hn1 with ⟨n0, hn0, he0⟩
      constructor
      · intro hmid
        by_cases h1 : (n1.id == target.id) = true
        · exfalso
          rw [if_pos h1] at he1
          have hmid1 : m.id = n1.id := by
            rw [he1]
            show ((Node.add_pod n1 pid).id : Nat) = n1.id
            exact add_pod_id n1 pid
          exact htne ((beq_iff_eq.mp h1).symm.trans (hmid1.symm.trans hmid))
        · rw [if_neg h1] at he1
          subst he1
          by_cases h0 : (n0.id == failedId) = true
          · rw [if_pos h0] at he0
            have hne : n0 = fnode := eq_of_mem_of_nodup_ids hnodup hn0 hfmem
              ((beq_iff_eq.mp h0).trans (beq_iff_eq.mp hfid).symm)
            subst he0
            rw [hne, remove_pod_pod_ids]
          · rw [if_neg h0] at he0
            subst he0
            exact absurd (beq_iff_eq.mpr hmid) h0
      · intro hmid
        by_cases h1 : (n1.id == target.id) = true
        · rw [if_pos h1] at he1
          by_cases h0 : (n0.id == failedId) = true
          · exfalso
            rw [if_pos h0] at he0
            have hid01 : n1.id = n0.id := by rw [he0]; exact remove_pod_id n0 pid
            exact htne ((beq_iff_eq.mp h1).symm.trans
              (hid01.trans (beq_iff_eq.mp h0)))
          · rw [if_neg h0] at he0
            have h1' : (n0.id == target.id) = true := by rw [← he0]; exact h1
            have hne : n0 = target := eq_of_mem_of_nodup_ids hnodup hn0 htmem
              (beq_iff_eq.mp h1')
            subst he1
            rw [he0, hne]
            constructor
            · show ((Node.add_pod target pid).cpu_cores_avail : Int) - pod.cpu_cores_req = _
              rw [add_pod_avail]
            · show pid ∈ (Node.add_pod target pid).pod_ids
              exact mem_add_pod target pid
        · rw [if_neg h1] at he1
          subst he1
          exact absurd (beq_iff_eq.mpr hmid) h1
    · intro q hq hqid
      rcases List.mem_map.mp hq with ⟨q0, hq0, he⟩
      by_cases h0 : (q0.id == pid) = true
      · rw [if_pos h0] at he
        subst he
        exact ⟨rfl, rfl⟩
      · rw [if_neg h0] at he
        subst he
        exact absurd (beq_iff_eq.mpr hqid) h0
    · exact clusterSum_map_rebind st.store.pods pid target.id
  · intro target hsome hno
    simp only [reschedulePodStep, hpod, hsome]
    rw [if_neg (by rw [hno]; exact Bool.false_ne_true)]

/-- C4 counterexample: permanently failed node E hosts pod R and healthy
worker F is an eligible best-fit target, but the target rejects the
`run_pod` request — after the full rescheduler pass R is neither relocated
nor deleted: it is still bound to E. -/
theorem reschedule_leaves_pod_counterexample_c4 :
    cxNodeE.health_status = "permanently_failed" ∧
    schedulePod cxSt4.store cxPodR.cpu_cores_req = some cxNodeF ∧
    ((reschedule_pods cxSt4 (fun _ => false)).store.pods.map
      (fun p => (p.id, p.node_id, p.health_status))) = [(10, 1, "running")] ∧
    ((reschedule_pods cxSt4 (fun _ => false)).store.nodes.map
      (fun n => n.pod_ids)) = [[10], []] := by
  refine ⟨rfl, rfl, rfl, rfl⟩

/-! ### C3: CPU accounting -/

theorem runningSum_append_single (l : List Pod) (p : Pod) (mid : Nat) :
    (((l ++ [p]).filter (fun q => q.node_id == mid && q.health_status == "running")).map
      (fun q => q.cpu_cores_req)).sum =
    ((l.filter (fun q => q.node_id == mid && q.health_status == "running")).map
      (fun q => q.cpu_cores_req)).sum +
    (if (p.node_id == mid && p.health_status == "running") = true
     then p.cpu_cores_req else 0) := by
  rw [List.filter_append]
  cases h : (p.node_id == mid && p.health_status == "running") with
  | false => simp [List.filter_cons, h]
  | true => simp [List.filter_cons, h]

theorem runningPodsSum_updateNode (s : Store) (nid : Nat) (f : Node → Node) (mid : Nat) :
    runningPodsSum (updateNode s nid f) mid = runningPodsSum s mid := rfl

theorem runningPodsSum_append (s : Store) (p : Pod) (l2 : List Container)
    (l3 : List Volume) (l4 : List ConfigItem) (mid : Nat) :
    runningPodsSum
        { s with
          pods := s.pods ++ [p], containers := l2,
          volumes := l3, config_items := l4 } mid =
      runningPodsSum s mid +
      (if (p.node_id == mid && p.health_status == "running") = true
       then p.cpu_cores_req else 0) :=
  runningSum_append_single s.pods p mid

theorem runningPodsSum_fresh (s : Store) (snew : Store) (mid : Nat)
    (hpods : snew.pods = s.pods)
    (hfresh : ∀ p ∈ s.pods, p.node_id ≠ mid) :
    runningPodsSum snew mid = 0 := by
  unfold runningPodsSum
  rw [hpods]
  have hnil : s.pods.filter
      (fun p => p.node_id == mid && p.health_status == "running") = [] := by
    apply List.filter_eq_nil_iff.mpr
    intro p hp hc
    simp only [Bool.and_eq_true, beq_iff_eq] at hc
    exact hfresh p hp hc.1
  rw [hnil]
  rfl

theorem sum_filter_remove (l : List Pod) (pid : Nat) (pod : Pod) (P : Pod → Bool)
    (hmem : pod ∈ l) (hpid : pod.id = pid)
    (hnodup : (l.map (fun p => p.id)).Nodup) :
    (((l.filter (fun p => p.id != pid)).filter P).map (fun q => q.cpu_cores_req)).sum =
      ((l.filter P).map (fun q => q.cpu_cores_req)).sum -
      (if P pod = true then pod.cpu_cores_req else 0) := by
  induction l with
  | nil => cases hmem
  | cons h t ih =>
    rw [List.map_cons, List.nodup_cons] at hnodup
    obtain ⟨hnd1, hnd2⟩ := hnodup
    by_cases hh : h.id = pid
    · have hpodh : pod = h := by
        rcases List.mem_cons.mp hmem with heq | hmt
        · exact heq
        · exact absurd (by rw [hh, ← hpid]; exact List.mem_map_of_mem _ hmt) hnd1
      have hfh : ¬ ((h.id != pid) = true) := by
        rw [hh]
        simp
      have hft : t.filter (fun p => p.id != pid) = t := by
        apply List.filter_eq_self.mpr
        intro q hq
        apply bne_iff_ne.mpr
        intro hq2
        exact hnd1 (by rw [hh, ← hq2]; exact List.mem_map_of_mem _ hq)
      rw [List.filter_cons, if_neg hfh, hft, List.filter_cons]
      by_cases hP : P h = true
      · rw [if_pos hP, List.map_cons, List.sum_cons, hpodh, if_pos hP]
        omega
      · rw [if_neg hP, hpodh, if_neg hP]
        omega
    · have hmt : pod ∈ t := by
        rcases List.mem_cons.mp hmem with heq | hmt
        · exact absurd (heq ▸ hpid) hh
        · exact hmt
      have hfh : (h.id != pid) = true := bne_iff_ne.mpr hh
      rw [List.filter_cons, if_pos hfh, List.filter_cons, List.filter_cons]
      by_cases hP : P h = true
      · rw [if_pos hP, if_pos hP, List.map_cons, List.sum_cons, List.map_cons,
          List.sum_cons, ih hmt hnd2]
        omega
      · rw [if_neg hP, if_neg hP]
        exact ih hmt hnd2

theorem runningPodsSum_remove (s : Store) (pid : Nat) (pod : Pod)
    (hmem : pod ∈ s.pods) (hpid : pod.id = pid)
    (hnodup : (s.pods.map (fun p => p.id)).Nodup) (snew : Store) (mid : Nat)
    (hpods : snew.pods = s.pods.filter (fun p => p.id != pid)) :
    runningPodsSum snew mid = runningPodsSum s mid -
      (if (pod.node_id == mid && pod.health_status == "running") = true
       then pod.cpu_cores_req else 0) := by
  unfold runningPodsSum
  rw [hpods]
  exact sum_filter_remove s.pods pid pod _ hmem hpid hnodup

theorem I1_create_node (st : SysState) (name : String) (cpu : Int) (node_type : String)
    (now : Int) (ok : Bool) (cid : String)
    (href : RefIntegrity st.store) (h1 : nodeInvariantI1 st.store) :
    nodeInvariantI1 (create_node st name cpu node_type now ok cid).1.store := by
  unfold create_node
  split
  · exact h1
  split
  · exact h1
  split
  · exact h1
  split
  · exact h1
  split
  · exact h1
  intro n hn
  rcases List.mem_append.mp hn with hn | hn
  · exact h1 n hn
  · rcases List.mem_singleton.mp hn with rfl
    rw [runningPodsSum_fresh st.store]
    · show cpu = cpu + 0
      omega
    · rfl
    · intro p hp heq
      rcases href p hp with ⟨m, hm, hpm⟩
      have hlt := lt_nextId (st.store.nodes.map (fun x => x.id)) m.id
        (List.mem_map_of_mem _ hm)
      have heq2 : p.node_id = nextId (st.store.nodes.map (fun x => x.id)) := heq
      rw [hpm] at heq2
      omega

theorem I1_add_pod (st : SysState) (req : PodRequest) (ip : String)
    (hnodup : (st.store.nodes.map (fun n => n.id)).Nodup)
    (h1 : nodeInvariantI1 st.store) :
    nodeInvariantI1 (add_pod st req ip true).1.store := by
  unfold add_pod
  split
  · exact h1
  split
  · exact h1
  split
  · exact h1
  split
  · exact h1
  rename_i node heq
  have hnmem : node ∈ st.store.nodes := (schedulePod_mem heq).1
  rw [if_pos rfl]
  dsimp only
  intro m hm
  rcases mem_updateNode hm with ⟨n0, hn0, he⟩
  by_cases h0 : (n0.id == node.id) = true
  · rw [if_pos h0] at he
    have hne : n0 = node := eq_of_mem_of_nodup_ids hnodup hn0 hnmem (beq_iff_eq.mp h0)
    subst he
    rw [add_pod_total, add_pod_avail, add_pod_id]
    dsimp only
    rw [runningPodsSum_updateNode, runningPodsSum_append]
    dsimp only [addPodRows]
    rw [show (("running" : String) == "running") = true from rfl, Bool.and_true]
    rw [hne]
    rw [if_pos (beq_self_eq_true node.id)]
    have hbase := h1 node hnmem
    omega
  · rw [if_neg h0] at he
    subst he
    rw [runningPodsSum_updateNode, runningPodsSum_append]
    dsimp only [addPodRows]
    rw [show (("running" : String) == "running") = true from rfl, Bool.and_true]
    have hcond : (node.id == m.id) = false := by
      apply beq_eq_false_iff_ne.mpr
      intro hcc
      exact h0 (beq_iff_eq.mpr hcc.symm)
    rw [hcond]
    simp only [Bool.false_eq_true, if_false]
    have hbase := h1 m hn0
    omega

theorem I1_delete_pod (st : SysState) (pid : Nat)
    (_hnodup : (st.store.nodes.map (fun n => n.id)).Nodup)
    (hpnodup : (st.store.pods.map (fun p => p.id)).Nodup)
    (hrun : ∀ q ∈ st.store.pods, q.id = pid → q.health_status = "running")
    (h1 : nodeInvariantI1 st.store) :
    nodeInvariantI1 (delete_pod st pid).1.store := by
  unfold delete_pod
  split
  · exact h1
  rename_i pod heqp
  split
  · exact h1
  rename_i node heqn
  have hmem : pod ∈ st.store.pods := List.mem_of_find?_eq_some heqp
  have hpid : pod.id = pid := by
    have h := List.find?_some heqp
    exact beq_iff_eq.mp h
  have hph : pod.health_status = "running" := hrun pod hmem hpid
  dsimp only
  intro m hm
  rcases mem_updateNode hm with ⟨n0, hn0, he⟩
  rw [runningPodsSum_remove st.store pid pod hmem hpid hpnodup]
  case hpods => rfl
  by_cases h0 : (n0.id == pod.node_id) = true
  · rw [if_pos h0] at he
    subst he
    rw [remove_pod_total, remove_pod_avail, remove_pod_id]
    dsimp only
    have hcond : (pod.node_id == n0.id && pod.health_status == "running") = true := by
      rw [hph]
      rw [show (pod.node_id == n0.id) = true from beq_iff_eq.mpr (beq_iff_eq.mp h0).symm]
      rfl
    rw [if_pos hcond]
    have hbase := h1 n0 hn0
    omega
  · rw [if_neg h0] at he
    subst he
    have hcond : (pod.node_id == m.id && pod.health_status == "running") = false := by
      have hne : pod.node_id ≠ m.id := fun hcc => h0 (beq_iff_eq.mpr hcc.symm)
      rw [beq_eq_false_iff_ne.mpr hne]
      rfl
    rw [if_neg (by rw [hcond]; exact Bool.false_ne_true)]
    have hbase := h1 m hn0
    omega

/-- C3 (amended): invariant I1 — every node's `cpu_cores_total` equals
`cpu_cores_avail` plus the `cpu_cores_req` of its running pods — holds in the
empty cluster and is preserved by node creation (given referential
integrity), by a successful create-pod (which decrements the chosen node
exactly when binding the running pod) and by deleting a running pod (which
increments its node exactly when unbinding it); it is not an invariant of
every reachable state, because the heartbeat ingest overwrites
`cpu_cores_avail` with whatever the payload reports, without binding or
unbinding any pod. -/
theorem cpu_accounting_c3 :
    nodeInvariantI1 initState.store ∧
    (∀ (st : SysState) (name : String) (cpu : Int) (node_type : String) (now : Int)
        (ok : Bool) (cid : String), RefIntegrity st.store → nodeInvariantI1 st.store →
      nodeInvariantI1 (create_node st name cpu node_type now ok cid).1.store) ∧
    (∀ (st : SysState) (req : PodRequest) (ip : String),
      (st.store.nodes.map (fun n => n.id)).Nodup → nodeInvariantI1 st.store →
      nodeInvariantI1 (add_pod st req ip true).1.store) ∧
    (∀ (st : SysState) (pid : Nat),
      (st.store.nodes.map (fun n => n.id)).Nodup →
      (st.store.pods.map (fun p => p.id)).Nodup →
      (∀ q ∈ st.store.pods, q.id = pid → q.health_status = "running") →
      nodeInvariantI1 st.store →
      nodeInvariantI1 (delete_pod st pid).1.store) := by
  refine ⟨?_, ?_, ?_, ?_⟩
  · intro n hn
    cases hn
  · intro st name cpu node_type now ok cid href h1
    exact I1_create_node st name cpu node_type now ok cid href h1
  · intro st req ip hnodup h1
    exact I1_add_pod st req ip hnodup h1
  · intro st pid hnodup hpnodup hrun h1
    exact I1_delete_pod st pid hnodup hpnodup hrun h1

/-- C3 counterexample: from the empty cluster, create a 4-core node (healthy,
no pods) and ingest a heartbeat reporting `cpu_cores_avail = 1`: the reached
state violates I1 (`cpu_cores_total = 4` but `cpu_cores_avail + Σ = 1`), and
the heartbeat changed `cpu_cores_avail` without binding or unbinding a pod. -/
theorem I1_broken_counterexample_c3 :
    Reachable (runSteps cxTr3) ∧ ¬ nodeInvariantI1 (runSteps cxTr3).store :=
  ⟨⟨cxTr3, rfl⟩, by decide⟩

/-! ### C7: recovery attempts -/

theorem hbSweepNode_attempts (now : Int) (n : Node) :
    (hbSweepNode now n).recovery_attempts = n.recovery_attempts := by
  unfold hbSweepNode
  split
  · rfl
  split
  · rfl
  split
  · rfl
  · rfl

theorem monitorSweepNode_attempts (now : Int) (n : Node) :
    (monitorSweepNode now n).1.recovery_attempts = n.recovery_attempts ∨
    (monitorSweepNode now n).1.recovery_attempts = n.recovery_attempts + 1 := by
  unfold monitorSweepNode
  split
  · exact Or.inl rfl
  split
  · exact Or.inl rfl
  split
  · dsimp only
    split
    · exact Or.inr rfl
    · exact Or.inr rfl
  · exact Or.inl rfl

theorem monitorContainerNode_attempts (statusOf : Nat → String) (n : Node) :
    (monitorContainerNode statusOf n).1.recovery_attempts = n.recovery_attempts ∨
    (monitorContainerNode statusOf n).1.recovery_attempts = n.recovery_attempts + 1 := by
  unfold monitorContainerNode
  split
  · dsimp only
    split
    · split
      · exact Or.inr rfl
      · exact Or.inl rfl
    · split
      · exact Or.inr rfl
      · exact Or.inl rfl
  · exact Or.inl rfl

theorem applyHeartbeat_attempts (p : HeartbeatPayload) (hs : String) (now : Int)
    (n : Node) :
    (applyHeartbeat p hs now n).recovery_attempts = n.recovery_attempts := by
  unfold applyHeartbeat
  dsimp only
  (repeat' split) <;> rfl

theorem map_ids_eq {l : List Node} {f : Node → Node} (hf : ∀ n ∈ l, (f n).id = n.id) :
    (l.map f).map (fun n => n.id) = l.map (fun n => n.id) := by
  rw [List.map_map]
  apply List.map_congr_left
  intro n hn
  exact hf n hn

theorem nonneg_create (st : SysState) (name : String) (cpu : Int) (node_type : String)
    (now : Int) (ok : Bool) (cid : String) (h : NonnegAttempts st) :
    NonnegAttempts (create_node st name cpu node_type now ok cid).1 := by
  unfold create_node
  split
  · exact h
  split
  · exact h
  split
  · exact h
  split
  · exact h
  split
  · exact h
  intro n hn
  rcases List.mem_append.mp hn with hn | hn
  · exact h n hn
  · rcases List.mem_singleton.mp hn with rfl
    show (0 : Int) ≤ 0
    exact le_refl 0

theorem nonneg_add_pod (st : SysState) (req : PodRequest) (ip : String) (ok : Bool)
    (h : NonnegAttempts st) : NonnegAttempts (add_pod st req ip ok).1 := by
  unfold add_pod
  split
  · exact h
  split
  · exact h
  split
  · exact h
  split
  · exact h
  split
  · intro n hn
    rcases mem_updateNode hn with ⟨n0, hn0, he⟩
    split at he
    · rw [he, add_pod_attempts]
      exact h n0 hn0
    · rw [he]
      exact h n0 hn0
  · intro n hn
    rcases mem_updateNode hn with ⟨n0, hn0, he⟩
    split at he
    · rw [he]
      exact h n0 hn0
    · rw [he]
      exact h n0 hn0

theorem nonneg_delete_pod (st : SysState) (pid : Nat) (h : NonnegAttempts st) :
    NonnegAttempts (delete_pod st pid).1 := by
  unfold delete_pod
  split
  · exact h
  split
  · exact h
  intro n hn
  rcases mem_updateNode hn with ⟨n0, hn0, he⟩
  split at he
  · rw [he, remove_pod_attempts]
    exact h n0 hn0
  · rw [he]
    exact h n0 hn0

theorem nonneg_heartbeat (st : SysState) (nid : Nat) (p : HeartbeatPayload) (now : Int)
    (h : NonnegAttempts st) : NonnegAttempts (update_heartbeat st nid p now).1 := by
  unfold update_heartbeat
  split
  · exact h
  split
  · exact h
  · intro n hn
    rcases mem_updateNode hn with ⟨n0, hn0, he⟩
    split at he
    · rw [he, applyHeartbeat_attempts]
      exact h n0 hn0
    · rw [he]
      exact h n0 hn0

theorem nonneg_hb_sweep (st : SysState) (now : Int) (h : NonnegAttempts st) :
    NonnegAttempts (hb_sweep st now) := by
  intro n hn
  rcases List.mem_map.mp hn with ⟨m, hm, rfl⟩
  rw [hbSweepNode_attempts]
  exact h m hm

theorem nonneg_monitor_health (st : SysState) (now : Int) (h : NonnegAttempts st) :
    NonnegAttempts (monitor_node_health st now) := by
  intro n hn
  rcases List.mem_map.mp hn with ⟨pr, hpr, rfl⟩
  rcases List.mem_map.mp hpr with ⟨m, hm, rfl⟩
  have hbase := h m hm
  rcases monitorSweepNode_attempts now m with he | he
  · rw [he]; exact hbase
  · rw [he]; omega

theorem nonneg_monitor_containers (st : SysState) (statusOf : Nat → String)
    (h : NonnegAttempts st) : NonnegAttempts (monitor_containers st statusOf) := by
  intro n hn
  rcases List.mem_map.mp hn with ⟨pr, hpr, rfl⟩
  rcases List.mem_map.mp hpr with ⟨m, hm, rfl⟩
  have hbase := h m hm
  rcases monitorContainerNode_attempts statusOf m with he | he
  · rw [he]; exact hbase
  · rw [he]; omega

theorem nonneg_recover_step (statusOf : Nat → String) (existsOf startOk : Nat → Bool)
    (now : Int) :
    ∀ (acc : SysState) (nid : Nat), NonnegAttempts acc →
      NonnegAttempts (recoverNodeStep statusOf existsOf startOk now acc nid) := by
  intro acc nid h
  unfold recoverNodeStep
  split
  · exact h
  rename_i node hfind
  split
  · exact h
  have hnode : node ∈ acc.store.nodes := List.mem_of_find?_eq_some hfind
  have h0 : 0 ≤ node.recovery_attempts := h node hnode
  have key : ∀ (f : Node → Node) (s2 : SysState),
      s2.store = updateNode acc.store nid f →
      (∀ m ∈ acc.store.nodes, 0 ≤ (f m).recovery_attempts) →
      NonnegAttempts s2 := by
    intro f s2 hs2 hf n hn
    rw [hs2] at hn
    rcases mem_updateNode hn with ⟨n0, hn0, he⟩
    split at he
    · rw [he]
      exact hf n0 hn0
    · rw [he]
      exact h n0 hn0
  dsimp only
  repeat' split
  all_goals
    first
    | exact h
    | exact key _ _ rfl (fun m hm => by
        show (0 : Int) ≤ node.recovery_attempts + 1
        omega)

theorem nonneg_recovery (st : SysState) (statusOf : Nat → String)
    (existsOf startOk : Nat → Bool) (now : Int) (h : NonnegAttempts st) :
    NonnegAttempts (attempt_node_recovery st statusOf existsOf startOk now) := by
  unfold attempt_node_recovery
  have hbase : NonnegAttempts
      { store := { st.store with nodes := st.store.nodes.map (fun n =>
          if n.health_status == "failed" &&
             decide (n.max_recovery_attempts ≤ n.recovery_attempts) then
            { n with health_status := "permanently_failed" }
          else n) },
        need_rescheduling := st.need_rescheduling || !(st.store.nodes.filter (fun n =>
          n.health_status == "failed" &&
          decide (n.max_recovery_attempts ≤ n.recovery_attempts))).isEmpty } := by
    intro n hn
    rcases List.mem_map.mp hn with ⟨m, hm, rfl⟩
    split
    · exact h m hm
    · exact h m hm
  exact foldl_preserve NonnegAttempts _
    (nonneg_recover_step statusOf existsOf startOk now) _ _ hbase

theorem nonneg_resched_step (runPodOk : Nat → Bool) (nid : Nat) :
    ∀ (acc : SysState) (pid : Nat), NonnegAttempts acc →
      NonnegAttempts (reschedulePodStep runPodOk nid acc pid) := by
  intro acc pid h
  unfold reschedulePodStep
  split
  · exact h
  rename_i pod hfind
  split
  · intro n hn
    rcases mem_updateNode hn with ⟨n0, hn0, he⟩
    split at he
    · rw [he, remove_pod_attempts]
      exact h n0 hn0
    · rw [he]
      exact h n0 hn0
  rename_i target htarget
  split
  · intro n hn
    rcases mem_updateNode hn with ⟨n1, hn1, he1⟩
    have h1 : ∀ m ∈ (updateNode acc.store nid (fun n => Node.remove_pod n pid)).nodes,
        0 ≤ m.recovery_attempts := by
      intro m hm
      rcases mem_updateNode hm with ⟨n0, hn0, he0⟩
      split at he0
      · rw [he0, remove_pod_attempts]
        exact h n0 hn0
      · rw [he0]
        exact h n0 hn0
    split at he1
    · rw [he1]
      show (0 : Int) ≤ (Node.add_pod n1 pid).recovery_attempts
      rw [add_pod_attempts]
      exact h1 n1 hn1
    · rw [he1]
      exact h1 n1 hn1
  · exact h

theorem nonneg_reschedule (st : SysState) (runPodOk : Nat → Bool)
    (h : NonnegAttempts st) : NonnegAttempts (reschedule_pods st runPodOk) := by
  unfold reschedule_pods
  split
  · exact h
  dsimp only
  split
  · exact h
  have hstep : ∀ (acc : SysState) (nid : Nat), NonnegAttempts acc →
      NonnegAttempts (((acc.store.pods.filter (fun p => p.node_id == nid)).map
        (fun p => p.id)).foldl (reschedulePodStep runPodOk nid) acc) := by
    intro acc nid hacc
    exact foldl_preserve NonnegAttempts _ (nonneg_resched_step runPodOk nid) _ _ hacc
  exact foldl_preserve NonnegAttempts _ hstep
    ((st.store.nodes.filter (fun n =>
      n.health_status == "permanently_failed")).map (fun n => n.id)) st h

theorem nonneg_reap (st : SysState) (existsOf : Nat → Bool) (h : NonnegAttempts st) :
    NonnegAttempts (reap_stale_containers st existsOf) := by
  intro n hn
  rcases List.mem_map.mp hn with ⟨m, hm, rfl⟩
  split
  · split
    · exact h m hm
    · exact h m hm
  · exact h m hm

theorem nonneg_delete_node (st : SysState) (nid : Nat) (h : NonnegAttempts st) :
    NonnegAttempts (delete_node st nid).1 := by
  unfold delete_node
  split
  · exact h
  split
  · exact h
  intro n hn
  exact h n (List.mem_of_mem_filter hn)

theorem nonneg_simulate (st : SysState) (nid : Nat) (h : NonnegAttempts st) :
    NonnegAttempts (simulate_node_failure st nid).1 := by
  unfold simulate_node_failure
  split
  · exact h
  intro n hn
  rcases mem_updateNode hn with ⟨n0, hn0, he⟩
  split at he
  · rw [he]
    exact h n0 hn0
  · rw [he]
    exact h n0 hn0

theorem nonneg_deregister (st : SysState) (nid : Nat) (h : NonnegAttempts st) :
    NonnegAttempts (deregister_node st nid).1 := by
  unfold deregister_node
  split
  · exact h
  intro n hn
  rcases mem_updateNode hn with ⟨n0, hn0, he⟩
  split at he
  · rw [he]
    exact h n0 hn0
  · rw [he]
    exact h n0 hn0

theorem applyStep_nonneg (st : SysState) (step : Step) (h : NonnegAttempts st) :
    NonnegAttempts (applyStep st step) := by
  cases step with
  | createNode name cpu t now ok cid => exact nonneg_create st name cpu t now ok cid h
  | addPod req ip ok => exact nonneg_add_pod st req ip ok h
  | deletePod pid => exact nonneg_delete_pod st pid h
  | heartbeat nid p now => exact nonneg_heartbeat st nid p now h
  | hbSweep now => exact nonneg_hb_sweep st now h
  | monitorSweep now => exact nonneg_monitor_health st now h
  | containerMonitor statusOf => exact nonneg_monitor_containers st statusOf h
  | recovery statusOf existsOf startOk now =>
      exact nonneg_recovery st statusOf existsOf startOk now h
  | reschedule runPodOk => exact nonneg_reschedule st runPodOk h
  | reap existsOf => exact nonneg_reap st existsOf h
  | deleteNode nid => exact nonneg_delete_node st nid h
  | simulateFailure nid => exact nonneg_simulate st nid h
  | deregister nid => exact nonneg_deregister st nid h

theorem failedcap_recovery (st : SysState) (statusOf : Nat → String)
    (existsOf startOk : Nat → Bool) (now : Int)
    (hnodup : (st.store.nodes.map (fun n => n.id)).Nodup) :
    FailedBelowCap (attempt_node_recovery st statusOf existsOf startOk now) := by
  unfold attempt_node_recovery
  have hstep : ∀ (acc : SysState) (nid : Nat),
      ((acc.store.nodes.map (fun n => n.id)).Nodup ∧ FailedBelowCap acc) →
      (((recoverNodeStep statusOf existsOf startOk now acc nid).store.nodes.map
        (fun n => n.id)).Nodup ∧
       FailedBelowCap (recoverNodeStep statusOf existsOf startOk now acc nid)) := by
    intro acc nid hQ
    obtain ⟨hQn, hQf⟩ := hQ
    unfold recoverNodeStep
    split
    · exact ⟨hQn, hQf⟩
    rename_i node hfind
    split
    · exact ⟨hQn, hQf⟩
    rename_i hnotf
    have hfailed : node.health_status = "failed" := by
      by_contra hne
      exact hnotf (bne_iff_ne.mpr hne)
    have hnodem : node ∈ acc.store.nodes := List.mem_of_find?_eq_some hfind
    have hnid : (node.id == nid) = true := by
      have hh := List.find?_some hfind
      exact hh
    have key : ∀ (f : Node → Node) (s2 : SysState),
        s2.store = updateNode acc.store nid f →
        (∀ n, (f n).id = n.id) →
        ((f node).health_status = "failed" →
          (f node).recovery_attempts < (f node).max_recovery_attempts) →
        ((s2.store.nodes.map (fun n => n.id)).Nodup ∧ FailedBelowCap s2) := by
      intro f s2 hs2 hfid hfcap
      constructor
      · rw [hs2]
        show ((acc.store.nodes.map _).map _).Nodup
        rw [map_ids_eq]
        · exact hQn
        · intro n hn
          split
          · exact hfid n
          · rfl
      · intro n hn hnf
        rw [hs2] at hn
        rcases mem_updateNode hn with ⟨n0, hn0, he⟩
        split at he
        · rename_i hc
          have hn0node : n0 = node := eq_of_mem_of_nodup_ids hQn hn0 hnodem
            ((beq_iff_eq.mp hc).trans (beq_iff_eq.mp hnid).symm)
          rw [he, hn0node] at hnf ⊢
          exact hfcap hnf
        · rw [he] at hnf ⊢
          exact hQf n0 hn0 hnf
    dsimp only
    split
    · refine key _ _ rfl (fun n => rfl) ?_
      intro hnf
      have hx : ("recovering" : String) = "failed" := hnf
      exact absurd hx (by decide)
    split
    · split
      · refine key _ _ rfl (fun n => rfl) ?_
        intro hnf
        have hx : ("permanently_failed" : String) = "failed" := hnf
        exact absurd hx (by decide)
      · rename_i hcap
        refine key _ _ rfl (fun n => rfl) ?_
        intro _
        show node.recovery_attempts + 1 < node.max_recovery_attempts
        have : ¬ (node.max_recovery_attempts ≤ node.recovery_attempts + 1) := by
          intro hle
          exact hcap (decide_eq_true hle)
        omega
    split
    · refine key _ _ rfl (fun n => rfl) ?_
      intro hnf
      have hx : ("recovering" : String) = "failed" := hnf
      exact absurd hx (by decide)
    split
    · refine key _ _ rfl (fun n => rfl) ?_
      intro hnf
      have hx : ("permanently_failed" : String) = "failed" := hnf
      exact absurd hx (by decide)
    · exact ⟨hQn, hQf⟩
  refine (foldl_preserve (fun s =>
      ((s.store.nodes.map (fun n => n.id)).Nodup ∧ FailedBelowCap s))
      (recoverNodeStep statusOf existsOf startOk now) hstep _ _ ?_).2
  constructor
  · show ((st.store.nodes.map _).map _).Nodup
    rw [map_ids_eq]
    · exact hnodup
    · intro n hn
      split
      · rfl
      · rfl
  · intro n hn hnf
    rcases List.mem_map.mp hn with ⟨m, hm, rfl⟩
    revert hnf
    split
    · intro hnf
      have hx : ("permanently_failed" : String) = "failed" := hnf
      exact absurd hx (by decide)
    · rename_i hc
      intro hnf
      have hbeq : (m.health_status == "failed") = true := beq_iff_eq.mpr hnf
      have hnle : ¬ (m.max_recovery_attempts ≤ m.recovery_attempts) := by
        intro hle
        exact hc (by rw [hbeq, decide_eq_true hle]; rfl)
      omega

/-- C7 (amended): `recovery_attempts` is never negative in any state
reachable from the empty cluster, and after every pass of the recovery loop
any node still marked `failed` is strictly below `max_recovery_attempts` —
a failed node at or past the cap is escalated to `permanently_failed` in
that pass.  The upper bound `recovery_attempts ≤ max_recovery_attempts` is
not an invariant: heartbeats return a failed node to healthy without
resetting the counter, and the monitors increment it again without a cap
check. -/
theorem recovery_attempts_c7 :
    (∀ st, Reachable st → NonnegAttempts st) ∧
    (∀ (st : SysState) (statusOf : Nat → String) (existsOf startOk : Nat → Bool)
      (now : Int), (st.store.nodes.map (fun n => n.id)).Nodup →
      FailedBelowCap (attempt_node_recovery st statusOf existsOf startOk now)) := by
  constructor
  · rintro st ⟨steps, rfl⟩
    exact foldl_preserve NonnegAttempts applyStep applyStep_nonneg steps initState
      (fun n hn => absurd hn (List.not_mem_nil n))
  · intro st statusOf existsOf startOk now hnodup
    exact failedcap_recovery st statusOf existsOf startOk now hnodup

/-- C7 counterexample: from the empty cluster, alternating container-monitor
ticks (container reported `exited`) with heartbeats that set the node back to
healthy drives `recovery_attempts` to 4 while `max_recovery_attempts` is 3 —
the claimed bound `recovery_attempts ≤ max_recovery_attempts` is violated in
a reachable state. -/
theorem attempts_exceed_cap_counterexample_c7 :
    Reachable (runSteps cxTr7) ∧
    ((runSteps cxTr7).store.nodes.map
      (fun n => (n.recovery_attempts, n.max_recovery_attempts, n.health_status))) =
      [(4, 3, "failed")] :=
  ⟨⟨cxTr7, rfl⟩, rfl⟩

/-! ### Witnesses -/

theorem scheduler_best_fit_c1_witness :
    wNodeA ∈ eligible_nodes wStAB.store wReq3.cpu_cores_req ∧
    wNodeA.cpu_cores_avail ≤ wNodeB.cpu_cores_avail := by
  have h := scheduler_best_fit_c1 wStAB wReq3 (by decide)
  have hs : schedulePod wStAB.store wReq3.cpu_cores_req = some wNodeA := rfl
  have h3 := h.2.2.1 wNodeA hs
  exact ⟨h3.1, (h3.2 wNodeB (by decide)).1⟩

theorem add_pod_failure_commits_c2_witness :
    (add_pod wStAB wReq3 "10.244.0.7" false).2 = 500 :=
  (add_pod_failure_commits_c2 wStAB wReq3 "10.244.0.7" wNodeA (by decide) (by decide)
    (by decide) rfl (by decide)).1

theorem cpu_accounting_c3_witness :
    nodeInvariantI1 (add_pod wStAB wReq3 "10.244.0.8" true).1.store :=
  cpu_accounting_c3.2.2.1 wStAB wReq3 "10.244.0.8" (by decide) (by decide)

theorem reschedule_step_trichotomy_c4_witness :
    reschedulePodStep (fun _ => false) 1 cxSt4 10 = cxSt4 := by
  have h := reschedule_step_trichotomy_c4 cxSt4 (fun _ => false) 1 10 cxPodR cxNodeE
    rfl rfl rfl (by decide)
  exact h.2.2 cxNodeF rfl rfl

theorem heartbeat_pf_monotone_c5_witness :
    (update_heartbeat wSt5 3 {} 99).2.should_terminate = true :=
  (heartbeat_pf_monotone_c5 wSt5 3 {} 99 wPfNode rfl rfl (by decide)).2.2

theorem sweep_threshold_c6_witness :
    (monitorSweepNode 121 { cxNodeC6 with recovery_attempts := 0 }).1.recovery_attempts =
      ({ cxNodeC6 with recovery_attempts := 0 } : Node).recovery_attempts + 1 := by
  have h := sweep_threshold_c6 121 0 { cxNodeC6 with recovery_attempts := 0 } rfl rfl
  exact (h.2 (by decide)).2.1

theorem recovery_attempts_c7_witness :
    NonnegAttempts (runSteps cxTr3) :=
  recovery_attempts_c7.1 (runSteps cxTr3) ⟨cxTr3, rfl⟩

theorem delete_node_cascade_c10_witness :
    (delete_node wStD 1).2 = 200 :=
  (delete_node_cascade_c10 wStD 1 cxNodeE rfl (Or.inl rfl)).1

end Kube9
